import Mathlib

/-!
Verification of the Orbital Simulation & Interaction Engine of the
solar-system-explorer repository (src/frontend/src/app, SolarSystem
component).  The definitions below are shallow embeddings of the
TypeScript source: floating-point numbers are modelled as real numbers
(exact decimal literals as the rationals they denote), three.js vectors
as triples of reals, and the per-frame mutation of the scene as explicit
state-passing functions.
-/

namespace SolarSim

/-- Three-component vector, modelling THREE.Vector3. -/
structure Vec3 where
  x : ℝ
  y : ℝ
  z : ℝ

/-- Componentwise sum, modelling Vector3.add. -/
def Vec3.add (v w : Vec3) : Vec3 := ⟨v.x + w.x, v.y + w.y, v.z + w.z⟩

/-- Componentwise difference, modelling Vector3.sub. -/
def Vec3.sub (v w : Vec3) : Vec3 := ⟨v.x - w.x, v.y - w.y, v.z - w.z⟩

/-- Scalar multiple, modelling Vector3.multiplyScalar. -/
def Vec3.smul (c : ℝ) (v : Vec3) : Vec3 := ⟨c * v.x, c * v.y, c * v.z⟩

/-- Euclidean length, modelling Vector3.length. -/
noncomputable def Vec3.length (v : Vec3) : ℝ :=
  Real.sqrt (v.x ^ 2 + v.y ^ 2 + v.z ^ 2)

/-- Distance between two points, modelling Vector3.distanceTo. -/
noncomputable def Vec3.distanceTo (v w : Vec3) : ℝ := (v.sub w).length

/-- Normalisation, modelling three.js Vector3.normalize, which divides by
the length when it is nonzero and by 1 otherwise (divideScalar of
length-or-1), leaving the zero vector unchanged. -/
noncomputable def Vec3.normalize (v : Vec3) : Vec3 :=
  Vec3.smul (1 / (if v.length = 0 then 1 else v.length)) v

/-- Adds a scaled vector, modelling Vector3.addScaledVector. -/
def Vec3.addScaledVector (v w : Vec3) (s : ℝ) : Vec3 := v.add (Vec3.smul s w)

/-! ## Kepler solver (solveKepler, app.ts lines 533-549) -/

/-- One Newton-Raphson update for Kepler's equation M = E - e*sin E,
from the loop body of solveKepler:
E = E - (E - e * Math.sin(E) - meanAnomaly) / (1 - e * Math.cos(E)). -/
noncomputable def newtonStep (e meanAnomaly E : ℝ) : ℝ :=
  E - (E - e * Real.sin E - meanAnomaly) / (1 - e * Real.cos E)

/-- The Newton iterates of solveKepler, seeded with E = meanAnomaly. -/
noncomputable def newtonIter (e meanAnomaly : ℝ) : ℕ → ℝ
  | 0 => meanAnomaly
  | n + 1 => newtonStep e meanAnomaly (newtonIter e meanAnomaly n)

open scoped Classical in
/-- Iteration count of solveKepler: 15 when e > 0.9, otherwise 5. -/
noncomputable def keplerIters (e : ℝ) : ℕ := if 0.9 < e then 15 else 5

/-- The position computed by solveKepler after its Newton loop, as a
function of the final eccentric anomaly E (app.ts lines 542-548):
xOrb = a*(cos E - e), yOrb = b*sin E, then the node/inclination rotation
into the ecliptic frame. -/
noncomputable def solverPointFromE (a b e cosNode sinNode cosInc sinInc E : ℝ) : Vec3 :=
  let xOrb := a * (Real.cos E - e)
  let yOrb := b * Real.sin E
  ⟨cosNode * xOrb - sinNode * cosInc * yOrb,
   sinInc * yOrb,
   sinNode * xOrb + cosNode * cosInc * yOrb⟩

/-- Full solveKepler: Newton-Raphson on Kepler's equation (iteration count
by eccentricity, seed E = meanAnomaly), then the 3D world position on the
orbit. -/
noncomputable def solveKepler (meanAnomaly a b e cosNode sinNode cosInc sinInc : ℝ) : Vec3 :=
  let E := newtonIter e meanAnomaly (keplerIters e)
  solverPointFromE a b e cosNode sinNode cosInc sinInc E

/-- Kepler residual |E - e*sin E - M| of the eccentric anomaly returned by
the solver for eccentricity e and mean anomaly M. -/
noncomputable def keplerResidual (e meanAnomaly : ℝ) : ℝ :=
  let E := newtonIter e meanAnomaly (keplerIters e)
  |E - e * Real.sin E - meanAnomaly|

/-! ## Static orbit polyline (createOrbitLine, app.ts lines 506-526) -/

/-- Parametric point of the orbit-path polyline at eccentric anomaly E,
from the loop body of createOrbitLine:
xOrb = a*(cos E - e), yOrb = b*sin E, then
(cosNode*xOrb - sinNode*cosInc*yOrb, sinInc*yOrb,
 sinNode*xOrb + cosNode*cosInc*yOrb). -/
noncomputable def orbitLinePoint (a b e cosNode sinNode cosInc sinInc E : ℝ) : Vec3 :=
  let xOrb := a * (Real.cos E - e)
  let yOrb := b * Real.sin E
  ⟨cosNode * xOrb - sinNode * cosInc * yOrb,
   sinInc * yOrb,
   sinNode * xOrb + cosNode * cosInc * yOrb⟩

/-- The 256 sample points of createOrbitLine, sampled at
E = (i / 256) * 2 * pi for i = 0 .. 255. -/
noncomputable def createOrbitLinePts (a b e cosNode sinNode cosInc sinInc : ℝ) : List Vec3 :=
  (List.range 256).map fun (i : ℕ) =>
    orbitLinePoint a b e cosNode sinNode cosInc sinInc (((i : ℝ) / 256) * Real.pi * 2)

/-! ## Speed controls (increaseSpeed / decreaseSpeed, app.ts lines 1010-1016) -/

/-- increaseSpeed: v === 0 ? 0.125 : Math.min(v * 2, 64). -/
def increaseSpeed (v : ℚ) : ℚ := if v = 0 then 1 / 8 else min (v * 2) 64

/-- decreaseSpeed: v <= 0.125 ? 0 : v / 2. -/
def decreaseSpeed (v : ℚ) : ℚ := if v ≤ 1 / 8 then 0 else v / 2

/-! ## Body records (Planet interface, planet.model.ts), restricted to the
fields the interaction engine reads. -/

/-- The fields of a Planet record that the engine consults.  Decimal
literals of the source are embedded as exact rationals. -/
structure Planet where
  name : String
  color : String := ""
  is_star : Bool := false
  is_asteroid_belt : Bool := false
  is_oort_cloud : Bool := false
  is_comet : Bool := false
  eccentricity : ℚ := 0
deriving DecidableEq

/-- The synthetic Oort-cloud record (OORT_CLOUD_PLANET constant of the
component); only the fields the engine reads are kept. -/
def OORT_CLOUD_PLANET : Planet :=
  { name := "Oort Cloud", color := "#aaccff", is_oort_cloud := true }

/-- The synthetic asteroid-belt record (ASTEROID_BELT_PLANET constant). -/
def ASTEROID_BELT_PLANET : Planet :=
  { name := "Asteroid Belt", color := "#aa9966", is_asteroid_belt := true }

/-- Visual sphere radii by body name (VISUAL_SIZES record). -/
def VISUAL_SIZES : String → Option ℚ
  | "Sun" => some 1.8
  | "Mercury" => some 0.7
  | "Venus" => some 1.1
  | "Earth" => some 1.2
  | "Mars" => some 0.9
  | "Jupiter" => some 3.2
  | "Saturn" => some 2.8
  | "Uranus" => some 2.2
  | "Neptune" => some 2.1
  | _ => none

/-- Eccentricity boost constant of the component (boost = 1). -/
def ECCENTRICITY_BOOST : ℚ := 1

/-- Uniform hit-detection geometry radius (HIT_RADIUS constant = 5). -/
def HIT_RADIUS : ℝ := 5

/-- OrbitControls minimum camera distance set in initScene. -/
def minDistance : ℝ := 15

/-- Planet eccentricity as used in buildSolarSystem (app.ts line 411):
e = Math.min((planet.eccentricity ?? 0) * ECCENTRICITY_BOOST, 0.70). -/
def clampPlanetEcc (raw : ℚ) : ℚ := min (raw * ECCENTRICITY_BOOST) 0.70

/-- One comet entry of the COMET_DEFS table (orbital fields only). -/
structure CometDef where
  name : String
  a : ℚ
  e : ℚ
  inc : ℚ
  node : ℚ
  period : ℚ
deriving DecidableEq

/-- The COMET_DEFS table (orbital fields). -/
def COMET_DEFS : List CometDef :=
  [⟨"Halley", 17.834, 0.96714, 162.26, 58.42, 75.32⟩,
   ⟨"Encke", 2.2179, 0.84823, 11.78, 334.57, 3.30⟩,
   ⟨"67P", 3.463, 0.641, 7.04, 50.14, 6.44⟩]

/-! ## Interaction handlers (app.ts lines 872-1001) -/

/-- The hovered-body tooltip data held by the hoveredPlanet signal. -/
structure HoverInfo where
  name : String
  color : String
deriving DecidableEq

/-- Events the component emits to the host UI: planetSelected (carrying the
full body record) and closeInfo. -/
inductive UIEvent where
  | select (p : Planet)
  | closeInfo
deriving DecidableEq

/-- Interaction-session state visible to the handlers: the hoveredPlanet
signal and whether the host's info panel is open (selectedPlanet set). -/
structure UIState where
  hovered : Option HoverInfo
  panelOpen : Bool
deriving DecidableEq

/-- onControlsStart (app.ts lines 926-930): on any OrbitControls start it
clears the hoveredPlanet signal; it emits nothing. -/
def onControlsStart (s : UIState) : UIState × List UIEvent :=
  ({ s with hovered := none }, [])

/-- onCanvasZoom (app.ts lines 932-935): scroll-wheel zoom emits closeInfo. -/
def onCanvasZoom (s : UIState) : UIState × List UIEvent :=
  (s, [UIEvent.closeInfo])

/-- onCanvasTouchStart (app.ts lines 937-942): emits closeInfo when at
least two touch contacts are present. -/
def onCanvasTouchStart (touches : ℕ) (s : UIState) : UIState × List UIEvent :=
  if 2 ≤ touches then (s, [UIEvent.closeInfo]) else (s, [])

/-- Camera-manipulation start gestures of the claim. -/
inductive CameraGesture where
  | dragRotate
  | pan
  | wheelZoom
  | pinch
deriving DecidableEq

/-- Handlers that run at the start of each camera gesture, following the
listener registrations in initScene: OrbitControls dispatches its start
event at the beginning of every rotate, pan and zoom interaction (the
component subscribes onControlsStart to it); a scroll-wheel zoom
additionally fires the canvas wheel listener onCanvasZoom, and a pinch
additionally fires the canvas touchstart listener onCanvasTouchStart with
two contacts. -/
def gestureStart : CameraGesture → UIState → UIState × List UIEvent
  | CameraGesture.dragRotate, s => onControlsStart s
  | CameraGesture.pan, s => onControlsStart s
  | CameraGesture.wheelZoom, s =>
      let r1 := onControlsStart s
      let r2 := onCanvasZoom r1.1
      (r2.1, r1.2 ++ r2.2)
  | CameraGesture.pinch, s =>
      let r1 := onCanvasTouchStart 2 s
      let r2 := onControlsStart r1.1
      (r2.1, r1.2 ++ r2.2)

open scoped Classical in
/-- onCanvasClick (app.ts lines 944-957): the nearest raycast hit wins;
when it carries the Oort-cloud record and the camera is within 1800 units
of the origin, nothing is emitted, otherwise planetSelected is emitted
with the record.  The returned Option is the emitted select event. -/
noncomputable def onCanvasClick (hits : List Planet) (cameraPos : Vec3) : Option Planet :=
  match hits with
  | [] => none
  | p :: _ =>
      if p.is_oort_cloud = true ∧ cameraPos.length ≤ 1800 then none else some p

/-- Camera transition created by a double-click (the _zoomAnim record):
from/to camera positions and orbit targets plus progress t in [0, 1]. -/
structure ZoomAnim where
  fromCam : Vec3
  toCam : Vec3
  fromTarget : Vec3
  toTarget : Vec3
  t : ℝ

open scoped Classical in
/-- Zoom distance chosen by onCanvasDblClick (app.ts lines 972-981):
120 for the asteroid belt, 20 for a comet, otherwise
max(visualRadius * 8, controls.minDistance + 5) with the visual radius
looked up in VISUAL_SIZES and defaulting to 2. -/
noncomputable def dblClickZoomDist (p : Planet) : ℝ :=
  if p.is_asteroid_belt = true then 120
  else if p.is_comet = true then 20
  else max (((VISUAL_SIZES p.name).getD 2 : ℚ) * 8 : ℚ) (minDistance + 5)

open scoped Classical in
/-- onCanvasDblClick (app.ts lines 960-1001): no transition without a hit
or when the nearest hit is the Oort cloud; otherwise a ZoomAnim is created
towards the hit object's current position, with the camera kept on its
current side (dir = normalize(camera - target)) at the chosen zoom
distance, and progress starting at 0.  Hits are (record, current hit-mesh
position) pairs ordered by ray distance. -/
noncomputable def onCanvasDblClick (hits : List (Planet × Vec3))
    (cameraPos ctrlTarget : Vec3) : Option ZoomAnim :=
  match hits with
  | [] => none
  | (p, hitPos) :: _ =>
      if p.is_oort_cloud = true then none
      else
        let targetPos := hitPos
        let zoomDist := dblClickZoomDist p
        let dir := (cameraPos.sub targetPos).normalize
        let toCam := targetPos.addScaledVector dir zoomDist
        some { fromCam := cameraPos, toCam := toCam,
               fromTarget := ctrlTarget, toTarget := targetPos, t := 0 }

/-- Progress update of the zoom animation in animate (app.ts line 848):
a.t = Math.min(a.t + 0.04, 1). -/
noncomputable def zoomAnimTickT (t : ℝ) : ℝ := min (t + 0.04) 1

/-- Progress of a freshly created transition (t = 0) after n animate
ticks. -/
noncomputable def zoomT : ℕ → ℝ
  | 0 => 0
  | n + 1 => zoomAnimTickT (zoomT n)

/-! ## Screen-space hit-proxy rescaling (animate, app.ts lines 769-799) -/

/-- Target screen radius of every rescaled hit sphere (HIT_PX = 30). -/
def HIT_PX : ℝ := 30

/-- World radius assigned to a rescaled hit sphere:
hitWorldR = (HIT_PX / halfH) * dist * tanHalfFov (app.ts lines 787, 797,
825). -/
noncomputable def hitWorldRadius (halfH tanHalfFov dist : ℝ) : ℝ :=
  HIT_PX / halfH * dist * tanHalfFov

/-- Current scale factors of all hit proxies; the belt ring and the
Oort-cloud sphere keep their own scales. -/
structure ProxyScales where
  planetScales : List ℝ
  cometScales : List ℝ
  sunScale : ℝ
  beltScale : ℝ
  oortScale : ℝ

/-- One frame of hit-proxy rescaling in animate: every planet and comet
hit sphere and the Sun hit sphere get scale hitWorldR / HIT_RADIUS from
their current camera distance; the asteroid-belt ring and the Oort-cloud
sphere are left untouched.  Distances to the camera are passed per body. -/
noncomputable def animateRescale (halfH tanHalfFov : ℝ)
    (planetDists cometDists : List ℝ) (sunDist : ℝ)
    (s : ProxyScales) : ProxyScales :=
  { planetScales := planetDists.map fun d => hitWorldRadius halfH tanHalfFov d / HIT_RADIUS,
    cometScales := cometDists.map fun d => hitWorldRadius halfH tanHalfFov d / HIT_RADIUS,
    sunScale := hitWorldRadius halfH tanHalfFov sunDist / HIT_RADIUS,
    beltScale := s.beltScale,
    oortScale := s.oortScale }

/-! ## Per-frame simulation state update (animate, app.ts lines 764-843) -/

/-- Live state of one planet (PlanetObject): the mean anomaly, the mesh's
axial rotation angle about y, the current world position, and the
immutable orbital elements. -/
structure PlanetSt where
  meanAnomaly : ℝ
  rotY : ℝ
  pos : Vec3
  speed : ℝ
  rotationDir : ℝ
  a : ℝ
  b : ℝ
  e : ℝ
  cosNode : ℝ
  sinNode : ℝ
  cosInc : ℝ
  sinInc : ℝ

/-- World position of a planet from its current mean anomaly
(keplerToWorld). -/
noncomputable def planetWorld (p : PlanetSt) : Vec3 :=
  solveKepler p.meanAnomaly p.a p.b p.e p.cosNode p.sinNode p.cosInc p.sinInc

/-- Planet update of one animate tick (app.ts lines 777-789, state part):
meanAnomaly += speed_body * speed, position recomputed by the solver,
mesh.rotation.y += rotationDir * 0.005. -/
noncomputable def tickPlanet (speed : ℝ) (p : PlanetSt) : PlanetSt :=
  let M := p.meanAnomaly + p.speed * speed
  { p with
    meanAnomaly := M,
    pos := solveKepler M p.a p.b p.e p.cosNode p.sinNode p.cosInc p.sinInc,
    rotY := p.rotY + p.rotationDir * 0.005 }

/-- Live state of one moon (MoonObject): orbital angle, world position,
circle radius, inclination terms, and the index of its parent planet. -/
structure MoonSt where
  angle : ℝ
  pos : Vec3
  speed : ℝ
  orbitRadius : ℝ
  cosInc : ℝ
  sinInc : ℝ
  parentIdx : ℕ

/-- World position of a moon from its angle and its parent's position
(the moon loop body, app.ts lines 804-811). -/
noncomputable def moonWorld (parentPos : Vec3) (angle : ℝ) (m : MoonSt) : Vec3 :=
  let x := Real.cos angle * m.orbitRadius
  let zOrb := Real.sin angle * m.orbitRadius
  ⟨parentPos.x + x, parentPos.y + m.sinInc * zOrb, parentPos.z + m.cosInc * zOrb⟩

/-- Position of the parent planet a moon reads, from the already-updated
planet list of the same tick. -/
def parentPos (planets : List PlanetSt) (i : ℕ) : Vec3 :=
  ((planets.get? i).map PlanetSt.pos).getD ⟨0, 0, 0⟩

/-- Moon update of one animate tick (app.ts lines 802-813):
angle += speed * simSpeed, then the position is recomputed on the tilted
circle around the parent's current position. -/
noncomputable def tickMoon (speed : ℝ) (planetsAfter : List PlanetSt) (m : MoonSt) : MoonSt :=
  let ang := m.angle + m.speed * speed
  { m with angle := ang, pos := moonWorld (parentPos planetsAfter m.parentIdx) ang m }

/-- Live state of one comet (CometObject, state part). -/
structure CometSt where
  meanAnomaly : ℝ
  rotY : ℝ
  pos : Vec3
  speed : ℝ
  a : ℝ
  b : ℝ
  e : ℝ
  cosNode : ℝ
  sinNode : ℝ
  cosInc : ℝ
  sinInc : ℝ

/-- World position of a comet from its current mean anomaly
(keplerCometToWorld). -/
noncomputable def cometWorld (c : CometSt) : Vec3 :=
  solveKepler c.meanAnomaly c.a c.b c.e c.cosNode c.sinNode c.cosInc c.sinInc

/-- Comet update of one animate tick (app.ts lines 816-826, state part):
meanAnomaly += speed * simSpeed, position recomputed by the solver,
mesh.rotation.y += 0.003. -/
noncomputable def tickComet (speed : ℝ) (c : CometSt) : CometSt :=
  let M := c.meanAnomaly + c.speed * speed
  { c with
    meanAnomaly := M,
    pos := solveKepler M c.a c.b c.e c.cosNode c.sinNode c.cosInc c.sinInc,
    rotY := c.rotY + 0.003 }

/-- Whole-scene simulation state advanced by animate. -/
structure SimState where
  planets : List PlanetSt
  moons : List MoonSt
  comets : List CometSt
  beltRotY : ℝ

/-- One animate tick at simulation speed simSpeed (app.ts lines 764-843,
body-state part): planets are advanced first, then moons (reading the
updated parent positions), then comets; the asteroid belt rotates by
-0.00008 * simSpeed. -/
noncomputable def animateTick (simSpeed : ℝ) (s : SimState) : SimState :=
  let planets := s.planets.map (tickPlanet simSpeed)
  let moons := s.moons.map (tickMoon simSpeed planets)
  let comets := s.comets.map (tickComet simSpeed)
  { planets := planets, moons := moons, comets := comets,
    beltRotY := s.beltRotY - 0.00008 * simSpeed }

/-! ## Orbital-plane projection of the solver (for the circular-orbit
reduction) -/

/-- Orbital-plane position (xOrb, yOrb) computed inside solveKepler before
the frame rotation. -/
noncomputable def solveKeplerPlane (meanAnomaly a b e : ℝ) : ℝ × ℝ :=
  let E := newtonIter e meanAnomaly (keplerIters e)
  (a * (Real.cos E - e), b * Real.sin E)

/-! ## Theorems -/

/-- With zero eccentricity every Newton iterate equals the seed mean
anomaly. -/
theorem newtonIter_zero_ecc (M : ℝ) : ∀ n, newtonIter 0 M n = M := by
  intro n
  induction n with
  | zero => rfl
  | succ k ih =>
      rw [newtonIter, ih, newtonStep]
      norm_num

/-- C2: starting from simulation speed 0, one increaseSpeed yields exactly
0.125; for any speed at or below 0.125, one decreaseSpeed yields exactly
0; increaseSpeed never produces a speed above 64. -/
theorem C2_speed_control :
    increaseSpeed 0 = 0.125 ∧
    (∀ v : ℚ, v ≤ 0.125 → decreaseSpeed v = 0) ∧
    (∀ v : ℚ, increaseSpeed v ≤ 64) := by
  refine ⟨by norm_num [increaseSpeed], fun v hv => ?_, fun v => ?_⟩
  · have h : v ≤ 1 / 8 := by norm_num at hv ⊢; exact hv
    rw [decreaseSpeed, if_pos h]
  · rw [increaseSpeed]
    split
    · norm_num
    · exact min_le_right _ _

/-- Witness for C2 at the concrete speed 1/16. -/
theorem C2_speed_control_witness : decreaseSpeed (1 / 16) = 0 :=
  C2_speed_control.2.1 (1 / 16) (by norm_num)

/-- C9: for e = 0 every Newton iterate stays at E = meanAnomaly, and with
b = a the solver's orbital-plane position is exactly
(a * cos M, a * sin M). -/
theorem C9_circular_orbit (M a : ℝ) :
    (∀ n, newtonIter 0 M n = M) ∧
    solveKeplerPlane M a a 0 = (a * Real.cos M, a * Real.sin M) := by
  refine ⟨newtonIter_zero_ecc M, ?_⟩
  rw [solveKeplerPlane]
  rw [newtonIter_zero_ecc]
  norm_num

/-- C8: the planet eccentricity clamp keeps e at most 0.70, the comet
table keeps e at most 0.96714, and for every 0 ≤ e < 1 the Newton divisor
1 - e * cos E is at least 1 - e > 0 at every iterate. -/
theorem C8_newton_divisor_safe :
    (∀ raw : ℚ, clampPlanetEcc raw ≤ 0.70) ∧
    (∀ d ∈ COMET_DEFS, 0 ≤ d.e ∧ d.e ≤ 0.96714) ∧
    (∀ (e M : ℝ) (n : ℕ), 0 ≤ e → e < 1 →
      1 - e ≤ 1 - e * Real.cos (newtonIter e M n) ∧
      0 < 1 - e * Real.cos (newtonIter e M n)) := by
  refine ⟨fun raw => min_le_right _ _, ?_, fun e M n he h1 => ?_⟩
  · intro d hd
    simp only [COMET_DEFS, List.mem_cons, List.not_mem_nil, or_false] at hd
    rcases hd with h | h | h <;> subst h <;> constructor <;> norm_num
  have hc : e * Real.cos (newtonIter e M n) ≤ e := by
    calc e * Real.cos (newtonIter e M n) ≤ e * 1 :=
          mul_le_mul_of_nonneg_left (Real.cos_le_one _) he
    _ = e := mul_one e
  exact ⟨by linarith, by linarith⟩

/-- Witness for C8 at e = 1/2, M = 0, iterate 3. -/
theorem C8_newton_divisor_safe_witness :
    0 < 1 - (1 / 2 : ℝ) * Real.cos (newtonIter (1 / 2) 0 3) :=
  (C8_newton_divisor_safe.2.2 (1 / 2) 0 3 (by norm_num) (by norm_num)).2

/-- C6: a rescaled hit proxy's world radius (base radius HIT_RADIUS times
the assigned scale) equals (30 / halfScreenHeight) * distance *
tan(halfFov); at two distances with the same field of view the radii are
in the ratio d1 : d2; the belt-ring and Oort-sphere scales are never
touched by the frame rescaling. -/
theorem C6_proxy_rescaling :
    (∀ halfH tanHalfFov dist : ℝ,
        HIT_RADIUS * (hitWorldRadius halfH tanHalfFov dist / HIT_RADIUS) =
          30 / halfH * dist * tanHalfFov) ∧
    (∀ halfH tanHalfFov d1 d2 : ℝ, d1 ≠ d2 →
        hitWorldRadius halfH tanHalfFov d1 * d2 =
          hitWorldRadius halfH tanHalfFov d2 * d1) ∧
    (∀ (halfH tanHalfFov : ℝ) (planetDists cometDists : List ℝ)
        (sunDist : ℝ) (s : ProxyScales),
        (animateRescale halfH tanHalfFov planetDists cometDists sunDist s).planetScales =
          planetDists.map (fun d => hitWorldRadius halfH tanHalfFov d / HIT_RADIUS) ∧
        (animateRescale halfH tanHalfFov planetDists cometDists sunDist s).cometScales =
          cometDists.map (fun d => hitWorldRadius halfH tanHalfFov d / HIT_RADIUS) ∧
        (animateRescale halfH tanHalfFov planetDists cometDists sunDist s).sunScale =
          hitWorldRadius halfH tanHalfFov sunDist / HIT_RADIUS ∧
        (animateRescale halfH tanHalfFov planetDists cometDists sunDist s).beltScale =
          s.beltScale ∧
        (animateRescale halfH tanHalfFov planetDists cometDists sunDist s).oortScale =
          s.oortScale) := by
  refine ⟨fun h t d => ?_, fun h t d1 d2 _ => ?_, fun h t pd cd sd s => ?_⟩
  · rw [hitWorldRadius, HIT_PX, HIT_RADIUS]
    ring
  · rw [hitWorldRadius, hitWorldRadius]
    ring
  · exact ⟨rfl, rfl, rfl, rfl, rfl⟩

/-- Witness for C6 at the concrete distances 2 and 3. -/
theorem C6_proxy_rescaling_witness :
    hitWorldRadius 1 1 2 * 3 = hitWorldRadius 1 1 3 * 2 :=
  C6_proxy_rescaling.2.1 1 1 2 3 (by norm_num)

/-- C7: the frame transform applied after the solver's Newton loop is the
same function as the orbit polyline's parametric point, so the live
position equals the polyline's parametric point at the solved eccentric
anomaly and always lies on the sampled curve. -/
theorem C7_solver_matches_polyline :
    (∀ a b e cosNode sinNode cosInc sinInc E : ℝ,
        solverPointFromE a b e cosNode sinNode cosInc sinInc E =
          orbitLinePoint a b e cosNode sinNode cosInc sinInc E) ∧
    (∀ meanAnomaly a b e cosNode sinNode cosInc sinInc : ℝ,
        solveKepler meanAnomaly a b e cosNode sinNode cosInc sinInc =
          orbitLinePoint a b e cosNode sinNode cosInc sinInc
            (newtonIter e meanAnomaly (keplerIters e))) ∧
    (∀ (a b e cosNode sinNode cosInc sinInc : ℝ) (i : ℕ), i < 256 →
        (createOrbitLinePts a b e cosNode sinNode cosInc sinInc).get? i =
          some (orbitLinePoint a b e cosNode sinNode cosInc sinInc
            (((i : ℝ) / 256) * Real.pi * 2))) ∧
    (∀ meanAnomaly a b e cosNode sinNode cosInc sinInc : ℝ,
        solveKepler meanAnomaly a b e cosNode sinNode cosInc sinInc ∈
          Set.range (orbitLinePoint a b e cosNode sinNode cosInc sinInc)) := by
  refine ⟨fun a b e cn sn ci si E => rfl, fun M a b e cn sn ci si => rfl,
    fun a b e cn sn ci si i hi => ?_, fun M a b e cn sn ci si => ⟨_, rfl⟩⟩
  rw [createOrbitLinePts, List.get?_map, List.get?_range hi, Option.map_some']

/-- Witness for C7 at sample index 0 of a unit circle orbit. -/
theorem C7_solver_matches_polyline_witness :
    (createOrbitLinePts 1 1 0 1 0 1 0).get? 0 =
      some (orbitLinePoint 1 1 0 1 0 1 0 (((0 : ℕ) : ℝ) / 256 * Real.pi * 2)) :=
  C7_solver_matches_polyline.2.2.1 1 1 0 1 0 1 0 0 (by norm_num)

/-- C4: a click whose nearest hit is the Oort-cloud record emits no select
while the camera is within 1800 units of the origin and emits the select
carrying the record beyond 1800; a double-click whose nearest hit is the
Oort-cloud record never creates a camera transition. -/
theorem C4_oort_click_gate :
    (∀ (p : Planet) (rest : List Planet) (cam : Vec3),
        p.is_oort_cloud = true → cam.length ≤ 1800 →
        onCanvasClick (p :: rest) cam = none) ∧
    (∀ (p : Planet) (rest : List Planet) (cam : Vec3),
        1800 < cam.length →
        onCanvasClick (p :: rest) cam = some p) ∧
    (∀ (p : Planet) (hitPos : Vec3) (rest : List (Planet × Vec3)) (cam tgt : Vec3),
        p.is_oort_cloud = true →
        onCanvasDblClick ((p, hitPos) :: rest) cam tgt = none) := by
  refine ⟨fun p rest cam h1 h2 => ?_, fun p rest cam h => ?_,
    fun p hitPos rest cam tgt h => ?_⟩
  · rw [onCanvasClick, if_pos ⟨h1, h2⟩]
  · rw [onCanvasClick, if_neg]
    rintro ⟨-, hle⟩
    exact absurd h (not_lt.mpr hle)
  · rw [onCanvasDblClick, if_pos h]

/-- Witness for C4 with the Oort-cloud record at camera distances 0 and
2000. -/
theorem C4_oort_click_gate_witness :
    onCanvasClick [OORT_CLOUD_PLANET] ⟨0, 0, 0⟩ = none ∧
    onCanvasClick [OORT_CLOUD_PLANET] ⟨0, 0, 2000⟩ = some OORT_CLOUD_PLANET ∧
    onCanvasDblClick [(OORT_CLOUD_PLANET, ⟨0, 0, 0⟩)] ⟨0, 0, 2000⟩ ⟨0, 0, 0⟩ = none := by
  have h0 : Vec3.length ⟨0, 0, 0⟩ = 0 := by
    simp [Vec3.length]
  have h2000 : Vec3.length ⟨0, 0, 2000⟩ = 2000 := by
    rw [Vec3.length]
    show Real.sqrt ((0 : ℝ) ^ 2 + 0 ^ 2 + 2000 ^ 2) = 2000
    rw [show ((0 : ℝ) ^ 2 + 0 ^ 2 + 2000 ^ 2) = 2000 ^ 2 by norm_num]
    exact Real.sqrt_sq (by norm_num)
  refine ⟨C4_oort_click_gate.1 _ _ _ rfl (by rw [h0]; norm_num),
    C4_oort_click_gate.2.1 _ _ _ (by rw [h2000]; norm_num),
    C4_oort_click_gate.2.2 _ _ _ _ _ rfl⟩

/-! ## Vector helper lemmas -/

/-- A three.js vector length is nonnegative. -/
theorem Vec3.length_nonneg (v : Vec3) : 0 ≤ v.length := Real.sqrt_nonneg _

/-- The length vanishes exactly on the zero vector. -/
theorem Vec3.length_eq_zero_iff (v : Vec3) : v.length = 0 ↔ v = ⟨0, 0, 0⟩ := by
  obtain ⟨x, y, z⟩ := v
  rw [Vec3.length]
  simp only [Vec3.mk.injEq]
  constructor
  · intro h
    have h0 : 0 ≤ x ^ 2 + y ^ 2 + z ^ 2 := by positivity
    have hsum : x ^ 2 + y ^ 2 + z ^ 2 = 0 := by
      rcases eq_or_lt_of_le h0 with h1 | h1
      · exact h1.symm
      · exact absurd h (ne_of_gt (Real.sqrt_pos.mpr h1))
    refine ⟨?_, ?_, ?_⟩ <;> nlinarith [sq_nonneg x, sq_nonneg y, sq_nonneg z]
  · rintro ⟨rfl, rfl, rfl⟩
    rw [show (0 : ℝ) ^ 2 + 0 ^ 2 + 0 ^ 2 = 0 by norm_num, Real.sqrt_zero]

/-- Difference vanishes exactly on equal vectors. -/
theorem Vec3.sub_eq_zero_iff (v w : Vec3) : v.sub w = ⟨0, 0, 0⟩ ↔ v = w := by
  obtain ⟨a, b, c⟩ := v
  obtain ⟨d, e, f⟩ := w
  rw [Vec3.sub]
  simp [Vec3.mk.injEq, sub_eq_zero]

/-- Length of a scalar multiple. -/
theorem Vec3.length_smul (c : ℝ) (v : Vec3) :
    (Vec3.smul c v).length = |c| * v.length := by
  rw [Vec3.smul, Vec3.length, Vec3.length]
  show Real.sqrt ((c * v.x) ^ 2 + (c * v.y) ^ 2 + (c * v.z) ^ 2) =
    |c| * Real.sqrt (v.x ^ 2 + v.y ^ 2 + v.z ^ 2)
  rw [show (c * v.x) ^ 2 + (c * v.y) ^ 2 + (c * v.z) ^ 2 =
      c ^ 2 * (v.x ^ 2 + v.y ^ 2 + v.z ^ 2) by ring]
  rw [Real.sqrt_mul (sq_nonneg c), Real.sqrt_sq_eq_abs]

/-- A nonzero vector normalises to unit length under the three.js
convention. -/
theorem Vec3.length_normalize (v : Vec3) (h : v.length ≠ 0) :
    v.normalize.length = 1 := by
  rw [Vec3.normalize, if_neg h, Vec3.length_smul]
  rw [abs_of_nonneg (one_div_nonneg.mpr (Vec3.length_nonneg v))]
  exact one_div_mul_cancel h

/-- Offsetting a point by a scaled vector moves it by exactly that scaled
vector. -/
theorem Vec3.addScaledVector_sub (v w : Vec3) (s : ℝ) :
    (v.addScaledVector w s).sub v = Vec3.smul s w := by
  obtain ⟨a, b, c⟩ := v
  obtain ⟨d, e, f⟩ := w
  rw [Vec3.addScaledVector, Vec3.smul, Vec3.add, Vec3.sub]
  simp only [Vec3.mk.injEq]
  exact ⟨by ring, by ring, by ring⟩

/-! ## Zoom-animation progress lemmas -/

/-- Transition progress never exceeds 1. -/
theorem zoomT_le_one (n : ℕ) : zoomT n ≤ 1 := by
  cases n with
  | zero => rw [zoomT]; norm_num
  | succ k => rw [zoomT, zoomAnimTickT]; exact min_le_right _ _

/-- Transition progress is monotonically non-decreasing. -/
theorem zoomT_mono (n : ℕ) : zoomT n ≤ zoomT (n + 1) := by
  rw [zoomT, zoomAnimTickT]
  exact le_min (by norm_num) (zoomT_le_one n)

/-- Closed form of the transition progress. -/
theorem zoomT_eq (n : ℕ) : zoomT n = min ((n : ℝ) * 0.04) 1 := by
  induction n with
  | zero => rw [zoomT]; norm_num
  | succ k ih =>
      rw [zoomT, zoomAnimTickT, ih]
      rcases le_or_lt ((k : ℝ) * 0.04) 1 with h | h
      · rw [min_eq_left h]
        have harg : (k : ℝ) * 0.04 + 0.04 = ((k + 1 : ℕ) : ℝ) * 0.04 := by
          push_cast; ring
        rw [harg]
      · rw [min_eq_right h.le, min_eq_right (by norm_num : (1 : ℝ) + 0.04 ≥ 1)]
        rw [min_eq_right]
        push_cast
        nlinarith

/-! ## C3: camera-manipulation starts (corrected) -/

/-- Concrete interaction state with a hovered body and an open info
panel. -/
def hoverStateOpen : UIState :=
  { hovered := some ⟨"Zemlja", "#6B93D6"⟩, panelOpen := true }

/-- C3 counterexample: at the start of a drag-rotate camera manipulation
with the info panel open, the component emits no event at all, so no
close signal is emitted, refuting the claim that every
camera-manipulation start emits close when a panel is open. -/
theorem C3_counterexample :
    hoverStateOpen.panelOpen = true ∧
    (gestureStart CameraGesture.dragRotate hoverStateOpen).2 = [] ∧
    UIEvent.closeInfo ∉ (gestureStart CameraGesture.dragRotate hoverStateOpen).2 :=
  ⟨rfl, rfl, List.not_mem_nil UIEvent.closeInfo⟩

/-- C3 as amended: every camera-manipulation start clears the hover state
and never emits a select (and the handlers never touch the panel state
themselves); the close signal is emitted exactly at wheel-zoom and pinch
starts, not at drag-rotate or pan starts. -/
theorem C3_camera_start (g : CameraGesture) (s : UIState) :
    (gestureStart g s).1.hovered = none ∧
    (gestureStart g s).1.panelOpen = s.panelOpen ∧
    (∀ p : Planet, UIEvent.select p ∉ (gestureStart g s).2) ∧
    (UIEvent.closeInfo ∈ (gestureStart g s).2 ↔
      g = CameraGesture.wheelZoom ∨ g = CameraGesture.pinch) := by
  cases g <;>
    simp [gestureStart, onControlsStart, onCanvasZoom, onCanvasTouchStart]

/-- Witness for C3 at a wheel-zoom start from the concrete hover state. -/
theorem C3_camera_start_witness :
    (gestureStart CameraGesture.wheelZoom hoverStateOpen).1.hovered = none ∧
    UIEvent.closeInfo ∈ (gestureStart CameraGesture.wheelZoom hoverStateOpen).2 :=
  ⟨(C3_camera_start CameraGesture.wheelZoom hoverStateOpen).1,
   (C3_camera_start CameraGesture.wheelZoom hoverStateOpen).2.2.2.mpr (Or.inl rfl)⟩

/-! ## C5: double-click camera transition (corrected) -/

/-- The Jupiter record as the interaction engine reads it. -/
def jupiterP : Planet := { name := "Jupiter" }

/-- C5 counterexample: a double-click on Jupiter with the camera exactly
at Jupiter's position creates a transition whose destination is at
distance 0 from the body, not max(visualRadius * 8, minDistance + 5) =
25.6, because three.js normalisation leaves the zero direction vector
unchanged.  This refutes the claim for arbitrary camera positions. -/
theorem C5_counterexample :
    ∃ z : ZoomAnim,
      onCanvasDblClick [(jupiterP, ⟨182, 0, 0⟩)] ⟨182, 0, 0⟩ ⟨0, 0, 0⟩ = some z ∧
      z.t = 0 ∧
      z.toCam.distanceTo ⟨182, 0, 0⟩ = 0 ∧
      dblClickZoomDist jupiterP = 25.6 ∧
      z.toCam.distanceTo ⟨182, 0, 0⟩ ≠ dblClickZoomDist jupiterP := by
  have hoort : jupiterP.is_oort_cloud = true ↔ False := by
    rw [show jupiterP.is_oort_cloud = false from rfl]; simp
  have hsub : Vec3.sub ⟨(182 : ℝ), 0, 0⟩ ⟨182, 0, 0⟩ = ⟨0, 0, 0⟩ := by
    rw [Vec3.sub]
    simp only [Vec3.mk.injEq]
    norm_num
  have hlen : Vec3.length ⟨(0 : ℝ), 0, 0⟩ = 0 := by
    rw [Vec3.length]
    rw [show (0 : ℝ) ^ 2 + 0 ^ 2 + 0 ^ 2 = 0 by norm_num]
    exact Real.sqrt_zero
  have hnorm : Vec3.normalize ⟨(0 : ℝ), 0, 0⟩ = ⟨0, 0, 0⟩ := by
    simp [Vec3.normalize, hlen, Vec3.smul]
  have hzd : dblClickZoomDist jupiterP = 25.6 := by
    rw [dblClickZoomDist,
      if_neg (by rw [show jupiterP.is_asteroid_belt = false from rfl]; simp),
      if_neg (by rw [show jupiterP.is_comet = false from rfl]; simp)]
    rw [show VISUAL_SIZES jupiterP.name = some 3.2 from rfl, minDistance]
    rw [show ((Option.some (3.2 : ℚ)).getD 2 : ℚ) = 3.2 from rfl]
    rw [max_eq_left (by push_cast; norm_num)]
    push_cast
    norm_num
  have hstep : onCanvasDblClick [(jupiterP, ⟨182, 0, 0⟩)] ⟨182, 0, 0⟩ ⟨0, 0, 0⟩ =
      some { fromCam := ⟨182, 0, 0⟩,
             toCam := Vec3.addScaledVector ⟨182, 0, 0⟩
               ((Vec3.sub ⟨182, 0, 0⟩ ⟨182, 0, 0⟩).normalize) (dblClickZoomDist jupiterP),
             fromTarget := ⟨0, 0, 0⟩, toTarget := ⟨182, 0, 0⟩, t := 0 } := by
    rw [onCanvasDblClick, if_neg (by rw [hoort]; exact not_false)]
  refine ⟨_, hstep, rfl, ?_, hzd, ?_⟩
  · show (Vec3.addScaledVector ⟨182, 0, 0⟩ _ _).distanceTo ⟨182, 0, 0⟩ = 0
    rw [hsub, hnorm, Vec3.distanceTo, Vec3.addScaledVector_sub, Vec3.length_smul,
      hlen, mul_zero]
  · show (Vec3.addScaledVector ⟨182, 0, 0⟩ _ _).distanceTo ⟨182, 0, 0⟩ ≠ _
    rw [hsub, hnorm, Vec3.distanceTo, Vec3.addScaledVector_sub, Vec3.length_smul,
      hlen, mul_zero, hzd]
    norm_num

/-- C5 as amended: a double-click on a planet with the camera at any
position other than the body's exact position creates a transition whose
destination lies at distance max(visualRadius * 8, minDistance + 5) from
the body's position, with progress starting at 0, monotonically
non-decreasing each tick and exactly 1 after 25 ticks. -/
theorem C5_dblclick_transition (p : Planet) (hitPos cam tgt : Vec3)
    (rest : List (Planet × Vec3))
    (hoort : p.is_oort_cloud = false)
    (hbelt : p.is_asteroid_belt = false)
    (hcomet : p.is_comet = false)
    (hcam : cam ≠ hitPos) :
    (∃ z : ZoomAnim,
      onCanvasDblClick ((p, hitPos) :: rest) cam tgt = some z ∧
      z.t = 0 ∧ z.toTarget = hitPos ∧
      z.toCam.distanceTo hitPos =
        max ((((VISUAL_SIZES p.name).getD 2 : ℚ) : ℝ) * 8) (minDistance + 5)) ∧
    (∀ n, zoomT n ≤ zoomT (n + 1)) ∧
    zoomT 25 = 1 := by
  have hlen : (cam.sub hitPos).length ≠ 0 := by
    rw [Ne, Vec3.length_eq_zero_iff, Vec3.sub_eq_zero_iff]
    exact hcam
  have hzd : dblClickZoomDist p =
      max ((((VISUAL_SIZES p.name).getD 2 : ℚ) : ℝ) * 8) (minDistance + 5) := by
    rw [dblClickZoomDist, if_neg (by rw [hbelt]; simp), if_neg (by rw [hcomet]; simp)]
    push_cast
    rfl
  have hzd0 : 0 ≤ dblClickZoomDist p := by
    rw [hzd]
    refine le_trans ?_ (le_max_right _ _)
    rw [minDistance]
    norm_num
  have heq : onCanvasDblClick ((p, hitPos) :: rest) cam tgt =
      some { fromCam := cam,
             toCam := Vec3.addScaledVector hitPos ((cam.sub hitPos).normalize)
               (dblClickZoomDist p),
             fromTarget := tgt, toTarget := hitPos, t := 0 } := by
    rw [onCanvasDblClick, if_neg (by rw [hoort]; simp)]
  refine ⟨⟨_, heq, rfl, rfl, ?_⟩, zoomT_mono, by rw [zoomT_eq]; norm_num⟩
  show (Vec3.addScaledVector hitPos ((cam.sub hitPos).normalize)
    (dblClickZoomDist p)).distanceTo hitPos = _
  rw [Vec3.distanceTo, Vec3.addScaledVector_sub, Vec3.length_smul,
    Vec3.length_normalize _ hlen, mul_one, abs_of_nonneg hzd0, hzd]

/-- Witness for C5 with Jupiter at (182, 0, 0) and the camera 25 units
away. -/
theorem C5_dblclick_transition_witness :
    (∃ z : ZoomAnim,
      onCanvasDblClick [(jupiterP, ⟨182, 0, 0⟩)] ⟨182, 0, 25⟩ ⟨0, 0, 0⟩ = some z ∧
      z.t = 0 ∧ z.toTarget = ⟨182, 0, 0⟩ ∧
      z.toCam.distanceTo ⟨182, 0, 0⟩ =
        max ((((VISUAL_SIZES jupiterP.name).getD 2 : ℚ) : ℝ) * 8) (minDistance + 5)) ∧
    (∀ n, zoomT n ≤ zoomT (n + 1)) ∧
    zoomT 25 = 1 :=
  C5_dblclick_transition jupiterP ⟨182, 0, 0⟩ ⟨182, 0, 25⟩ ⟨0, 0, 0⟩ [] rfl rfl rfl
    (by intro h; rw [Vec3.mk.injEq] at h; exact absurd h.2.2 (by norm_num))

/-! ## Certified interval arithmetic for sine and cosine

These lemmas let concrete rational bounds on cos and sin be established
at rational angles: a degree-3 Taylor base at a tiny angle, an exact
double-angle step, a Lipschitz transfer to nearby angles, and quotient
bounds for the Newton update. -/

/-- The sine function is 1-Lipschitz. -/
theorem abs_sin_sub_sin_le (x y : ℝ) :
    |Real.sin x - Real.sin y| ≤ |x - y| := by
  rw [Real.sin_sub_sin]
  have h1 : |Real.sin ((x - y) / 2)| ≤ |(x - y) / 2| := Real.abs_sin_le_abs
  have h2 : |Real.cos ((x + y) / 2)| ≤ 1 := Real.abs_cos_le_one _
  have key : |Real.sin ((x - y) / 2)| * |Real.cos ((x + y) / 2)| ≤ |(x - y) / 2| * 1 :=
    mul_le_mul h1 h2 (abs_nonneg _) (abs_nonneg _)
  rw [mul_one, abs_div, show |(2 : ℝ)| = 2 by norm_num] at key
  calc |2 * Real.sin ((x - y) / 2) * Real.cos ((x + y) / 2)|
      = 2 * (|Real.sin ((x - y) / 2)| * |Real.cos ((x + y) / 2)|) := by
        rw [abs_mul, abs_mul, show |(2 : ℝ)| = 2 by norm_num, mul_assoc]
    _ ≤ 2 * (|x - y| / 2) := by linarith
    _ = |x - y| := by ring

/-- The cosine function is 1-Lipschitz. -/
theorem abs_cos_sub_cos_le (x y : ℝ) :
    |Real.cos x - Real.cos y| ≤ |x - y| := by
  rw [Real.cos_sub_cos]
  have h1 : |Real.sin ((x - y) / 2)| ≤ |(x - y) / 2| := Real.abs_sin_le_abs
  have h2 : |Real.sin ((x + y) / 2)| ≤ 1 := Real.abs_sin_le_one _
  have key : |Real.sin ((x + y) / 2)| * |Real.sin ((x - y) / 2)| ≤ 1 * |(x - y) / 2| :=
    mul_le_mul h2 h1 (abs_nonneg _) (by norm_num)
  rw [one_mul, abs_div, show |(2 : ℝ)| = 2 by norm_num] at key
  calc |(-2) * Real.sin ((x + y) / 2) * Real.sin ((x - y) / 2)|
      = 2 * (|Real.sin ((x + y) / 2)| * |Real.sin ((x - y) / 2)|) := by
        rw [abs_mul, abs_mul, show |(-2 : ℝ)| = 2 by norm_num, mul_assoc]
    _ ≤ 2 * (|x - y| / 2) := by linarith
    _ = |x - y| := by ring

/-- Two-sided rational bounds on cos and sin at a small nonnegative
angle, from the degree-3 Taylor polynomial with the classical remainder
bound. -/
theorem cos_sin_base {x cL cU sL sU : ℝ} (hx0 : 0 ≤ x) (hx1 : x ≤ 1)
    (h1 : cL ≤ 1 - x ^ 2 / 2 - x ^ 4 * (5 / 96))
    (h2 : 1 - x ^ 2 / 2 + x ^ 4 * (5 / 96) ≤ cU)
    (h3 : sL ≤ x - x ^ 3 / 6 - x ^ 4 * (5 / 96))
    (h4 : x - x ^ 3 / 6 + x ^ 4 * (5 / 96) ≤ sU) :
    (cL ≤ Real.cos x ∧ Real.cos x ≤ cU) ∧ (sL ≤ Real.sin x ∧ Real.sin x ≤ sU) := by
  have hx : |x| ≤ 1 := by rw [abs_of_nonneg hx0]; exact hx1
  have habs : |x| ^ 4 = x ^ 4 := by
    rw [← abs_pow, abs_of_nonneg (by positivity)]
  have hc := Real.cos_bound hx
  have hs := Real.sin_bound hx
  rw [habs] at hc hs
  have hc' := abs_le.mp hc
  have hs' := abs_le.mp hs
  exact ⟨⟨by linarith [hc'.1], by linarith [hc'.2]⟩,
    ⟨by linarith [hs'.1], by linarith [hs'.2]⟩⟩

/-- Exact double-angle step: two-sided bounds at angle y with
nonnegative cos and sin lower bounds propagate to angle z = 2y. -/
theorem cos_sin_double {y z cL cU sL sU cL' cU' sL' sU' : ℝ}
    (hz : z = 2 * y)
    (hcL : cL ≤ Real.cos y) (hcU : Real.cos y ≤ cU)
    (hsL : sL ≤ Real.sin y) (hsU : Real.sin y ≤ sU)
    (hcL0 : 0 ≤ cL) (hsL0 : 0 ≤ sL)
    (h1 : cL' ≤ 2 * cL ^ 2 - 1) (h2 : 2 * cU ^ 2 - 1 ≤ cU')
    (h3 : sL' ≤ 2 * sL * cL) (h4 : 2 * sU * cU ≤ sU') :
    (cL' ≤ Real.cos z ∧ Real.cos z ≤ cU') ∧ (sL' ≤ Real.sin z ∧ Real.sin z ≤ sU') := by
  subst hz
  rw [Real.cos_two_mul, Real.sin_two_mul]
  have hcy0 : 0 ≤ Real.cos y := le_trans hcL0 hcL
  have hsy0 : 0 ≤ Real.sin y := le_trans hsL0 hsL
  have hclo : cL ^ 2 ≤ Real.cos y ^ 2 := pow_le_pow_left hcL0 hcL 2
  have hchi : Real.cos y ^ 2 ≤ cU ^ 2 := pow_le_pow_left hcy0 hcU 2
  have hslo : sL * cL ≤ Real.sin y * Real.cos y := mul_le_mul hsL hcL hcL0 hsy0
  have hshi : Real.sin y * Real.cos y ≤ sU * cU :=
    mul_le_mul hsU hcU hcy0 (le_trans hsy0 hsU)
  exact ⟨⟨by linarith, by linarith⟩, ⟨by nlinarith, by nlinarith⟩⟩

/-- Lipschitz transfer of two-sided sine bounds from a rational midpoint
to any angle within distance w of it. -/
theorem sin_bounds_transfer {E m w sL sU sL' sU' : ℝ}
    (hl : m - w ≤ E) (hu : E ≤ m + w)
    (hsL : sL ≤ Real.sin m) (hsU : Real.sin m ≤ sU)
    (h1 : sL' ≤ sL - w) (h2 : sU + w ≤ sU') :
    sL' ≤ Real.sin E ∧ Real.sin E ≤ sU' := by
  have h := abs_sin_sub_sin_le E m
  have habs : |E - m| ≤ w := abs_le.mpr ⟨by linarith, by linarith⟩
  have h3 := abs_le.mp (h.trans habs)
  exact ⟨by linarith [h3.1], by linarith [h3.2]⟩

/-- Lipschitz transfer of two-sided cosine bounds from a rational
midpoint to any angle within distance w of it. -/
theorem cos_bounds_transfer {E m w cL cU cL' cU' : ℝ}
    (hl : m - w ≤ E) (hu : E ≤ m + w)
    (hcL : cL ≤ Real.cos m) (hcU : Real.cos m ≤ cU)
    (h1 : cL' ≤ cL - w) (h2 : cU + w ≤ cU') :
    cL' ≤ Real.cos E ∧ Real.cos E ≤ cU' := by
  have h := abs_cos_sub_cos_le E m
  have habs : |E - m| ≤ w := abs_le.mpr ⟨by linarith, by linarith⟩
  have h3 := abs_le.mp (h.trans habs)
  exact ⟨by linarith [h3.1], by linarith [h3.2]⟩

/-- Quotient bounds for a nonpositive numerator over a positive
denominator interval. -/
theorem div_bounds_of_neg {f g fl fu gl gu lo hi : ℝ}
    (hfl : fl ≤ f) (hfu : f ≤ fu) (hgl : gl ≤ g) (hgu : g ≤ gu)
    (hgl0 : 0 < gl) (hfu0 : fu ≤ 0)
    (hlo : lo * gl ≤ fl) (hlo0 : lo ≤ 0) (hhi : fu ≤ hi * gu) (hhi0 : hi ≤ 0) :
    lo ≤ f / g ∧ f / g ≤ hi := by
  have hg0 : 0 < g := lt_of_lt_of_le hgl0 hgl
  constructor
  · rw [le_div_iff hg0]
    nlinarith [mul_nonneg (neg_nonneg.mpr hlo0) (sub_nonneg.mpr hgl)]
  · rw [div_le_iff hg0]
    nlinarith [mul_nonneg (neg_nonneg.mpr hhi0) (sub_nonneg.mpr hgu)]

/-- Unfolding of one Newton iteration of the solver. -/
theorem newtonIter_succ (e M : ℝ) (n : ℕ) :
    newtonIter e M (n + 1) =
      newtonIter e M n -
        (newtonIter e M n - e * Real.sin (newtonIter e M n) - M) /
          (1 - e * Real.cos (newtonIter e M n)) := rfl

/-- Quotient bounds for a nonnegative numerator over a positive
denominator interval. -/
theorem div_bounds_of_pos {f g fl fu gl gu lo hi : ℝ}
    (hfl : fl ≤ f) (hfu : f ≤ fu) (hgl : gl ≤ g) (hgu : g ≤ gu)
    (hgl0 : 0 < gl) (hfl0 : 0 ≤ fl)
    (hlo : lo * gu ≤ fl) (hlo0 : 0 ≤ lo) (hhi : fu ≤ hi * gl) (hhi0 : 0 ≤ hi) :
    lo ≤ f / g ∧ f / g ≤ hi := by
  have hg0 : 0 < g := lt_of_lt_of_le hgl0 hgl
  constructor
  · rw [le_div_iff hg0]
    nlinarith [mul_nonneg hlo0 (sub_nonneg.mpr hgu)]
  · rw [div_le_iff hg0]
    nlinarith [mul_nonneg hhi0 (sub_nonneg.mpr hgl)]

/-! ## C10: pause semantics of one animate tick -/

/-- A planet tick at speed 0 only advances the axial rotation, provided
the stored position is consistent with the mean anomaly. -/
theorem tickPlanet_zero (p : PlanetSt) (h : p.pos = planetWorld p) :
    tickPlanet 0 p = { p with rotY := p.rotY + p.rotationDir * 0.005 } := by
  obtain ⟨M, rotY, pos, speed, rdir, a, b, e, cn, sn, ci, si⟩ := p
  rw [planetWorld] at h
  simp only at h
  simp [tickPlanet, h]

/-- A comet tick at speed 0 only advances the axial rotation, provided
the stored position is consistent with the mean anomaly. -/
theorem tickComet_zero (c : CometSt) (h : c.pos = cometWorld c) :
    tickComet 0 c = { c with rotY := c.rotY + 0.003 } := by
  obtain ⟨M, rotY, pos, speed, a, b, e, cn, sn, ci, si⟩ := c
  rw [cometWorld] at h
  simp only at h
  simp [tickComet, h]

/-- The parent position a moon reads is unchanged by a speed-0 planet
pass. -/
theorem parentPos_tick_zero (planets : List PlanetSt)
    (hp : ∀ p ∈ planets, p.pos = planetWorld p) (i : ℕ) :
    parentPos (planets.map (tickPlanet 0)) i = parentPos planets i := by
  rw [parentPos, parentPos, List.get?_map]
  cases hq : planets.get? i with
  | none => rfl
  | some p =>
      have hmem : p ∈ planets := List.get?_mem hq
      simp [tickPlanet_zero p (hp p hmem)]

/-- A moon tick at speed 0 is the identity, provided the stored position
is consistent with the angle and the parent position. -/
theorem tickMoon_zero (planetsAfter : List PlanetSt) (m : MoonSt)
    (h : m.pos = moonWorld (parentPos planetsAfter m.parentIdx) m.angle m) :
    tickMoon 0 planetsAfter m = m := by
  obtain ⟨ang, pos, speed, orad, ci, si, pidx⟩ := m
  simp only at h
  simp only [tickMoon, mul_zero, add_zero, MoonSt.mk.injEq, and_true, true_and]
  exact h.symm

/-- C10: a tick at simulation speed 0 leaves every planet and comet mean
anomaly, every moon angle and every body world position unchanged, while
each planet's and comet's axial rotation still advances by its fixed
per-frame increment. -/
theorem C10_pause_tick (s : SimState)
    (hp : ∀ p ∈ s.planets, p.pos = planetWorld p)
    (hm : ∀ m ∈ s.moons, m.pos = moonWorld (parentPos s.planets m.parentIdx) m.angle m)
    (hc : ∀ c ∈ s.comets, c.pos = cometWorld c) :
    (animateTick 0 s).planets.map PlanetSt.meanAnomaly =
        s.planets.map PlanetSt.meanAnomaly ∧
    (animateTick 0 s).planets.map PlanetSt.pos = s.planets.map PlanetSt.pos ∧
    (animateTick 0 s).moons.map MoonSt.angle = s.moons.map MoonSt.angle ∧
    (animateTick 0 s).moons.map MoonSt.pos = s.moons.map MoonSt.pos ∧
    (animateTick 0 s).comets.map CometSt.meanAnomaly =
        s.comets.map CometSt.meanAnomaly ∧
    (animateTick 0 s).comets.map CometSt.pos = s.comets.map CometSt.pos ∧
    (animateTick 0 s).planets.map PlanetSt.rotY =
        s.planets.map (fun p => p.rotY + p.rotationDir * 0.005) ∧
    (animateTick 0 s).comets.map CometSt.rotY =
        s.comets.map (fun c => c.rotY + 0.003) := by
  have hplanets : (animateTick 0 s).planets =
      s.planets.map (fun p => { p with rotY := p.rotY + p.rotationDir * 0.005 }) := by
    simp only [animateTick]
    exact List.map_congr_left fun p hmem => tickPlanet_zero p (hp p hmem)
  have hmoons : (animateTick 0 s).moons = s.moons := by
    simp only [animateTick]
    have : s.moons.map (tickMoon 0 (s.planets.map (tickPlanet 0))) = s.moons.map id :=
      List.map_congr_left fun m hmem => by
        rw [tickMoon_zero]
        · rfl
        · rw [parentPos_tick_zero s.planets hp]
          exact hm m hmem
    rw [this, List.map_id]
  have hcomets : (animateTick 0 s).comets =
      s.comets.map (fun c => { c with rotY := c.rotY + 0.003 }) := by
    simp only [animateTick]
    exact List.map_congr_left fun c hmem => tickComet_zero c (hc c hmem)
  refine ⟨?_, ?_, ?_, ?_, ?_, ?_, ?_, ?_⟩
  · rw [hplanets, List.map_map]; rfl
  · rw [hplanets, List.map_map]; rfl
  · rw [hmoons]
  · rw [hmoons]
  · rw [hcomets, List.map_map]; rfl
  · rw [hcomets, List.map_map]; rfl
  · rw [hplanets, List.map_map]; rfl
  · rw [hcomets, List.map_map]; rfl

/-- The solver on a circular orbit of radius 35 starting at mean anomaly
0 returns the point (35, 0, 0). -/
theorem solveKepler_circular : solveKepler 0 35 35 0 1 0 1 0 = ⟨35, 0, 0⟩ := by
  rw [solveKepler, newtonIter_zero_ecc, solverPointFromE]
  simp

/-- Concrete pause-consistent planet: circular orbit of radius 35 at mean
anomaly 0. -/
noncomputable def pausePlanet : PlanetSt :=
  ⟨0, 0, ⟨35, 0, 0⟩, 1, 1, 35, 35, 0, 1, 0, 1, 0⟩

/-- Concrete pause-consistent moon of pausePlanet at angle 0, orbit
radius 2. -/
noncomputable def pauseMoon : MoonSt := ⟨0, ⟨37, 0, 0⟩, 1, 2, 1, 0, 0⟩

/-- Concrete pause-consistent comet on the same circular orbit. -/
noncomputable def pauseComet : CometSt :=
  ⟨0, 0, ⟨35, 0, 0⟩, 1, 35, 35, 0, 1, 0, 1, 0⟩

/-- Concrete whole-scene state for the pause witness. -/
noncomputable def pauseState : SimState :=
  ⟨[pausePlanet], [pauseMoon], [pauseComet], 0⟩

/-- Witness for C10 on the concrete pause-consistent state. -/
theorem C10_pause_tick_witness :
    (animateTick 0 pauseState).moons.map MoonSt.pos =
        pauseState.moons.map MoonSt.pos ∧
    (animateTick 0 pauseState).planets.map PlanetSt.rotY =
        pauseState.planets.map (fun p => p.rotY + p.rotationDir * 0.005) := by
  have hp : ∀ p ∈ pauseState.planets, p.pos = planetWorld p := by
    intro p hmem
    simp only [pauseState, List.mem_singleton] at hmem
    subst hmem
    rw [planetWorld]
    exact solveKepler_circular.symm
  have hm : ∀ m ∈ pauseState.moons,
      m.pos = moonWorld (parentPos pauseState.planets m.parentIdx) m.angle m := by
    intro m hmem
    simp only [pauseState, List.mem_singleton] at hmem
    subst hmem
    rw [show parentPos pauseState.planets pauseMoon.parentIdx = ⟨35, 0, 0⟩ from rfl]
    rw [moonWorld]
    show (⟨37, 0, 0⟩ : Vec3) = _
    simp only [pauseMoon, Real.cos_zero, Real.sin_zero, Vec3.mk.injEq]
    norm_num
  have hc : ∀ c ∈ pauseState.comets, c.pos = cometWorld c := by
    intro c hmem
    simp only [pauseState, List.mem_singleton] at hmem
    subst hmem
    rw [cometWorld]
    exact solveKepler_circular.symm
  exact ⟨(C10_pause_tick pauseState hp hm hc).2.2.2.1,
    (C10_pause_tick pauseState hp hm hc).2.2.2.2.2.2.1⟩

/-! ## C1: Kepler-residual tolerance violation at a concrete input -/

set_option maxHeartbeats 1000000

/-- Certified rational bounds on cos and sin at 0.2929, from a degree-3
Taylor base at 0.2929 / 2^12 followed by 12 exact double-angle steps. -/
theorem c1_chain_m0 :
    (((0.9574105857690265701692034 : ℝ) ≤ Real.cos (0.2929 : ℝ) ∧ Real.cos (0.2929 : ℝ) ≤ (0.9574105858140728374166014 : ℝ)) ∧ ((0.2887299260164719429766506 : ℝ) ≤ Real.sin (0.2929 : ℝ) ∧ Real.sin (0.2929 : ℝ) ≤ (0.2887299260209063187095878 : ℝ))) := by
  have h0 : (((0.9999999974432465420455676 : ℝ) ≤ Real.cos (0.2929 / 4096 : ℝ) ∧ Real.cos (0.2929 / 4096 : ℝ) ≤ (0.9999999974432465447693128 : ℝ)) ∧ ((0.0000715087890015551902566 : ℝ) ≤ Real.sin (0.2929 / 4096 : ℝ) ∧ Real.sin (0.2929 / 4096 : ℝ) ≤ (0.0000715087890015579140018 : ℝ))) :=
    cos_sin_base (by norm_num) (by norm_num) (by norm_num) (by norm_num) (by norm_num) (by norm_num)
  have h1 : (((0.9999999897729861812562468 : ℝ) ≤ Real.cos (0.2929 / 2048 : ℝ) ∧ Real.cos (0.2929 / 2048 : ℝ) ≤ (0.9999999897729861921512277 : ℝ)) ∧ ((0.0001430175776374496934054 : ℝ) ≤ Real.sin (0.2929 / 2048 : ℝ) ∧ Real.sin (0.2929 / 2048 : ℝ) ≤ (0.0001430175776374551412855 : ℝ))) :=
    cos_sin_double (by norm_num) h0.1.1 h0.1.2 h0.2.1 h0.2.2 (by norm_num) (by norm_num) (by norm_num) (by norm_num) (by norm_num) (by norm_num)
  have h2 : (((0.9999999590919449342086104 : ℝ) ≤ Real.cos (0.2929 / 1024 : ℝ) ∧ Real.cos (0.2929 / 1024 : ℝ) ≤ (0.9999999590919449777885337 : ℝ)) ∧ ((0.0002860351523496139011678 : ℝ) ≤ Real.sin (0.2929 / 1024 : ℝ) ∧ Real.sin (0.2929 / 1024 : ℝ) ≤ (0.0002860351523496248000444 : ℝ))) :=
    cos_sin_double (by norm_num) h1.1.1 h1.1.2 h1.2.1 h1.2.2 (by norm_num) (by norm_num) (by norm_num) (by norm_num) (by norm_num) (by norm_num)
  have h3 : (((0.9999998363677830837723801 : ℝ) ≤ Real.cos (0.2929 / 512 : ℝ) ∧ Real.cos (0.2929 / 512 : ℝ) ≤ (0.9999998363677832580920663 : ℝ)) ∧ ((0.0005720702812969442761955 : ℝ) ≤ Real.sin (0.2929 / 512 : ℝ) ∧ Real.sin (0.2929 / 512 : ℝ) ≤ (0.0005720702812969660988787 : ℝ))) :=
    cos_sin_double (by norm_num) h2.1.1 h2.1.2 h2.2.1 h2.2.2 (by norm_num) (by norm_num) (by norm_num) (by norm_num) (by norm_num) (by norm_num)
  have h4 : (((0.9999993454711858860943462 : ℝ) ≤ Real.cos (0.2929 / 256 : ℝ) ∧ Real.cos (0.2929 / 256 : ℝ) ≤ (0.999999345471186583372977 : ℝ)) ∧ ((0.0011441403753756318313731 : ℝ) ≤ Real.sin (0.2929 / 256 : ℝ) ∧ Real.sin (0.2929 / 256 : ℝ) ≤ (0.0011441403753756756761787 : ℝ))) :=
    cos_sin_double (by norm_num) h3.1.1 h3.1.2 h3.2.1 h3.2.2 (by norm_num) (by norm_num) (by norm_num) (by norm_num) (by norm_num) (by norm_num)
  have h5 : (((0.9999973818856003603143955 : ℝ) ≤ Real.cos (0.2929 / 128 : ℝ) ∧ Real.cos (0.2929 / 128 : ℝ) ≤ (0.9999973818856031494270932 : ℝ)) ∧ ((0.0022882792530055775138438 : ℝ) ≤ Real.sin (0.2929 / 128 : ℝ) ∧ Real.sin (0.2929 / 128 : ℝ) ≤ (0.002288279253005666798967 : ℝ))) :=
    cos_sin_double (by norm_num) h4.1.1 h4.1.2 h4.2.1 h4.2.2 (by norm_num) (by norm_num) (by norm_num) (by norm_num) (by norm_num) (by norm_num)
  have h6 : (((0.9999895275561104872767833 : ℝ) ≤ Real.cos (0.2929 / 64 : ℝ) ∧ Real.cos (0.2929 / 64 : ℝ) ≤ (0.9999895275561216436983653 : ℝ)) ∧ ((0.0045765465240574296463959 : ℝ) ≤ Real.sin (0.2929 / 64 : ℝ) ∧ Real.sin (0.2929 / 64 : ℝ) ≤ (0.0045765465240576209807123 : ℝ))) :=
    cos_sin_double (by norm_num) h5.1.1 h5.1.2 h5.2.1 h5.2.2 (by norm_num) (by norm_num) (by norm_num) (by norm_num) (by norm_num) (by norm_num)
  have h7 : (((0.9999581104437861111451179 : ℝ) ≤ Real.cos (0.2929 / 32 : ℝ) ∧ Real.cos (0.2929 / 32 : ℝ) ≤ (0.999958110443830736364106 : ℝ)) ∧ ((0.0091529971928614974209473 : ℝ) ≤ Real.sin (0.2929 / 32 : ℝ) ∧ Real.sin (0.2929 / 32 : ℝ) ≤ (0.0091529971928619822013375 : ℝ))) :=
    cos_sin_double (by norm_num) h6.1.1 h6.1.2 h6.2.1 h6.2.2 (by norm_num) (by norm_num) (by norm_num) (by norm_num) (by norm_num) (by norm_num)
  have h8 : (((0.9998324452846142841735803 : ℝ) ≤ Real.cos (0.2929 / 16 : ℝ) ∧ Real.cos (0.2929 / 16 : ℝ) ≤ (0.9998324452847927775722103 : ℝ)) ∧ ((0.018305227555742122964725 : ℝ) ≤ Real.sin (0.2929 / 16 : ℝ) ∧ Real.sin (0.2929 / 16 : ℝ) ≤ (0.0183052275557439093938993 : ℝ))) :=
    cos_sin_double (by norm_num) h7.1.1 h7.1.2 h7.2.1 h7.2.2 (by norm_num) (by norm_num) (by norm_num) (by norm_num) (by norm_num) (by norm_num)
  have h9 : (((0.9993298372876224326707929 : ℝ) ≤ Real.cos (0.2929 / 8 : ℝ) ∧ Real.cos (0.2929 / 8 : ℝ) ≤ (0.9993298372883362866356707 : ℝ)) ∧ ((0.0366043208570978996614473 : ℝ) ≤ Real.sin (0.2929 / 8 : ℝ) ∧ Real.sin (0.2929 / 8 : ℝ) ≤ (0.036604320857108006645705 : ℝ))) :=
    cos_sin_double (by norm_num) h8.1.1 h8.1.2 h8.2.1 h8.2.2 (by norm_num) (by norm_num) (by norm_num) (by norm_num) (by norm_num) (by norm_num)
  have h10 : (((0.9973202473866118531992411 : ℝ) ≤ Real.cos (0.2929 / 4 : ℝ) ∧ Real.cos (0.2929 / 4 : ℝ) ≤ (0.997320247389465355465516 : ℝ)) ∧ ((0.0731595800122951363457944 : ℝ) ≤ Real.sin (0.2929 / 4 : ℝ) ∧ Real.sin (0.2929 / 4 : ℝ) ≤ (0.0731595800123675970468129 : ℝ))) :=
    cos_sin_double (by norm_num) h9.1.1 h9.1.2 h9.2.1 h9.2.2 (by norm_num) (by norm_num) (by norm_num) (by norm_num) (by norm_num) (by norm_num)
  have h11 : (((0.9892953516945853340021169 : ℝ) ≤ Real.cos (0.2929 / 2 : ℝ) ∧ Real.cos (0.2929 / 2 : ℝ) ≤ (0.9892953517059687563466114 : ℝ)) ∧ ((0.1459270608731256184502358 : ℝ) ≤ Real.sin (0.2929 / 2 : ℝ) ∧ Real.sin (0.2929 / 2 : ℝ) ≤ (0.1459270608736876735534971 : ℝ))) :=
    cos_sin_double (by norm_num) h10.1.1 h10.1.2 h10.2.1 h10.2.2 (by norm_num) (by norm_num) (by norm_num) (by norm_num) (by norm_num) (by norm_num)
  have h12 : (((0.9574105857690265701692034 : ℝ) ≤ Real.cos (0.2929 : ℝ) ∧ Real.cos (0.2929 : ℝ) ≤ (0.9574105858140728374166014 : ℝ)) ∧ ((0.2887299260164719429766506 : ℝ) ≤ Real.sin (0.2929 : ℝ) ∧ Real.sin (0.2929 : ℝ) ≤ (0.2887299260209063187095878 : ℝ))) :=
    cos_sin_double (by norm_num) h11.1.1 h11.1.2 h11.2.1 h11.2.2 (by norm_num) (by norm_num) (by norm_num) (by norm_num) (by norm_num) (by norm_num)
  exact h12

/-- Certified rational bounds on cos and sin at 2.15643756841119147134, from a degree-3
Taylor base at 2.15643756841119147134 / 2^17 followed by 17 exact double-angle steps. -/
theorem c1_chain_m1 :
    (((-0.5527338796950198810111371 : ℝ) ≤ Real.cos (2.15643756841119147134 : ℝ) ∧ Real.cos (2.15643756841119147134 : ℝ) ≤ (-0.5527338796443494334892355 : ℝ)) ∧ ((0.8333578212280989386599749 : ℝ) ≤ Real.sin (2.15643756841119147134 : ℝ) ∧ Real.sin (2.15643756841119147134 : ℝ) ≤ (0.8333578212852043593152426 : ℝ))) := by
  have h0 : (((0.9999999998646606986123868 : ℝ) ≤ Real.cos (2.15643756841119147134 / 131072 : ℝ) ∧ Real.cos (2.15643756841119147134 / 131072 : ℝ) ≤ (0.9999999998646606986200188 : ℝ)) ∧ ((0.0000164523129906761732979 : ℝ) ≤ Real.sin (2.15643756841119147134 / 131072 : ℝ) ∧ Real.sin (2.15643756841119147134 / 131072 : ℝ) ≤ (0.00001645231299067618093 : ℝ))) :=
    cos_sin_base (by norm_num) (by norm_num) (by norm_num) (by norm_num) (by norm_num) (by norm_num)
  have h1 : (((0.9999999994586427944861806 : ℝ) ≤ Real.cos (2.15643756841119147134 / 65536 : ℝ) ∧ Real.cos (2.15643756841119147134 / 65536 : ℝ) ≤ (0.9999999994586427945167087 : ℝ)) ∧ ((0.000032904625976899057503 : ℝ) ≤ Real.sin (2.15643756841119147134 / 65536 : ℝ) ∧ Real.sin (2.15643756841119147134 / 65536 : ℝ) ≤ (0.0000329046259768990727676 : ℝ))) :=
    cos_sin_double (by norm_num) h0.1.1 h0.1.2 h0.2.1 h0.2.2 (by norm_num) (by norm_num) (by norm_num) (by norm_num) (by norm_num) (by norm_num)
  have h2 : (((0.9999999978345711785308576 : ℝ) ≤ Real.cos (2.15643756841119147134 / 32768 : ℝ) ∧ Real.cos (2.15643756841119147134 / 32768 : ℝ) ≤ (0.9999999978345711786529701 : ℝ)) ∧ ((0.0000658092519181718022713 : ℝ) ≤ Real.sin (2.15643756841119147134 / 32768 : ℝ) ∧ Real.sin (2.15643756841119147134 / 32768 : ℝ) ≤ (0.0000658092519181718328026 : ℝ))) :=
    cos_sin_double (by norm_num) h1.1.1 h1.1.2 h1.2.1 h1.2.2 (by norm_num) (by norm_num) (by norm_num) (by norm_num) (by norm_num) (by norm_num)
  have h3 : (((0.9999999913382847235015943 : ℝ) ≤ Real.cos (2.15643756841119147134 / 16384 : ℝ) ∧ Real.cos (2.15643756841119147134 / 16384 : ℝ) ≤ (0.9999999913382847239900444 : ℝ)) ∧ ((0.0001316185035513331028967 : ℝ) ≤ Real.sin (2.15643756841119147134 / 16384 : ℝ) ∧ Real.sin (2.15643756841119147134 / 16384 : ℝ) ≤ (0.0001316185035513331639755 : ℝ))) :=
    cos_sin_double (by norm_num) h2.1.1 h2.1.2 h2.2.1 h2.2.2 (by norm_num) (by norm_num) (by norm_num) (by norm_num) (by norm_num) (by norm_num)
  have h4 : (((0.9999999653531390440570002 : ℝ) ≤ Real.cos (2.15643756841119147134 / 8192 : ℝ) ∧ Real.cos (2.15643756841119147134 / 8192 : ℝ) ≤ (0.9999999653531390460108007 : ℝ)) ∧ ((0.0002632370048225822000325 : ℝ) ≤ Real.sin (2.15643756841119147134 / 8192 : ℝ) ∧ Real.sin (2.15643756841119147134 / 8192 : ℝ) ≤ (0.0002632370048225823223187 : ℝ))) :=
    cos_sin_double (by norm_num) h3.1.1 h3.1.2 h3.2.1 h3.2.2 (by norm_num) (by norm_num) (by norm_num) (by norm_num) (by norm_num) (by norm_num)
  have h5 : (((0.999999861412558577037949 : ℝ) ≤ Real.cos (2.15643756841119147134 / 4096 : ℝ) ∧ Real.cos (2.15643756841119147134 / 4096 : ℝ) ≤ (0.9999998614125585848531508 : ℝ)) ∧ ((0.0005264739914044925909711 : ℝ) ≤ Real.sin (2.15643756841119147134 / 4096 : ℝ) ∧ Real.sin (2.15643756841119147134 / 4096 : ℝ) ≤ (0.0005264739914044928365723 : ℝ))) :=
    cos_sin_double (by norm_num) h4.1.1 h4.1.2 h4.2.1 h4.2.2 (by norm_num) (by norm_num) (by norm_num) (by norm_num) (by norm_num) (by norm_num)
  have h6 : (((0.9999994456502727211096363 : ℝ) ≤ Real.cos (2.15643756841119147134 / 2048 : ℝ) ∧ Real.cos (2.15643756841119147134 / 2048 : ℝ) ≤ (0.9999994456502727523704392 : ℝ)) ∧ ((0.0010529478368836182929759 : ℝ) ≤ Real.sin (2.15643756841119147134 / 2048 : ℝ) ∧ Real.sin (2.15643756841119147134 / 2048 : ℝ) ≤ (0.0010529478368836187924073 : ℝ))) :=
    cos_sin_double (by norm_num) h5.1.1 h5.1.2 h5.2.1 h5.2.2 (by norm_num) (by norm_num) (by norm_num) (by norm_num) (by norm_num) (by norm_num)
  have h7 : (((0.9999977826017054916788135 : ℝ) ≤ Real.cos (2.15643756841119147134 / 1024 : ℝ) ∧ Real.cos (2.15643756841119147134 / 1024 : ℝ) ≤ (0.9999977826017056167219559 : ℝ)) ∧ ((0.0021058945063645441552891 : ℝ) ≤ Real.sin (2.15643756841119147134 / 1024 : ℝ) ∧ Real.sin (2.15643756841119147134 / 1024 : ℝ) ≤ (0.0021058945063645452199834 : ℝ))) :=
    cos_sin_double (by norm_num) h6.1.1 h6.1.2 h6.2.1 h6.2.2 (by norm_num) (by norm_num) (by norm_num) (by norm_num) (by norm_num) (by norm_num)
  have h8 : (((0.9999911304166556771082308 : ℝ) ≤ Real.cos (2.15643756841119147134 / 512 : ℝ) ∧ Real.cos (2.15643756841119147134 / 512 : ℝ) ≤ (0.9999911304166561772796914 : ℝ)) ∧ ((0.0042117796735153146562119 : ℝ) ≤ Real.sin (2.15643756841119147134 / 512 : ℝ) ∧ Real.sin (2.15643756841119147134 / 512 : ℝ) ≤ (0.0042117796735153173122512 : ℝ))) :=
    cos_sin_double (by norm_num) h7.1.1 h7.1.2 h7.2.1 h7.2.2 (by norm_num) (by norm_num) (by norm_num) (by norm_num) (by norm_num) (by norm_num)
  have h9 : (((0.9999645218239617258367033 : ℝ) ≤ Real.cos (2.15643756841119147134 / 256 : ℝ) ∧ Real.cos (2.15643756841119147134 / 256 : ℝ) ≤ (0.9999645218239637265048005 : ℝ)) ∧ ((0.0084234846335689449741402 : ℝ) ≤ Real.sin (2.15643756841119147134 / 256 : ℝ) ∧ Real.sin (2.15643756841119147134 / 256 : ℝ) ≤ (0.0084234846335689544993957 : ℝ))) :=
    cos_sin_double (by norm_num) h8.1.1 h8.1.2 h8.2.1 h8.2.2 (by norm_num) (by norm_num) (by norm_num) (by norm_num) (by norm_num) (by norm_num)
  have h10 : (((0.9998580898132488533523552 : ℝ) ≤ Real.cos (2.15643756841119147134 / 128 : ℝ) ∧ Real.cos (2.15643756841119147134 / 128 : ℝ) ≤ (0.9998580898132568557408238 : ℝ)) ∧ ((0.0168463715673965190355517 : ℝ) ≤ Real.sin (2.15643756841119147134 / 128 : ℝ) ∧ Real.sin (2.15643756841119147134 / 128 : ℝ) ≤ (0.0168463715673965717905809 : ℝ))) :=
    cos_sin_double (by norm_num) h9.1.1 h9.1.2 h9.2.1 h9.2.2 (by norm_num) (by norm_num) (by norm_num) (by norm_num) (by norm_num) (by norm_num)
  have h11 : (((0.9994323995299976209000558 : ℝ) ≤ Real.cos (2.15643756841119147134 / 64 : ℝ) ∧ Real.cos (2.15643756841119147134 / 64 : ℝ) ≤ (0.9994323995300296259114485 : ℝ)) ∧ ((0.0336879617913226211769435 : ℝ) ≤ Real.sin (2.15643756841119147134 / 64 : ℝ) ∧ Real.sin (2.15643756841119147134 / 64 : ℝ) ≤ (0.0336879617913229962944482 : ℝ))) :=
    cos_sin_double (by norm_num) h10.1.1 h10.1.2 h10.2.1 h10.2.2 (by norm_num) (by norm_num) (by norm_num) (by norm_num) (by norm_num) (by norm_num)
  have h12 : (((0.9977302424605775774435361 : ℝ) ≤ Real.cos (2.15643756841119147134 / 32 : ℝ) ∧ Real.cos (2.15643756841119147134 / 32 : ℝ) ≤ (0.997730242460705524824869 : ℝ)) ∧ ((0.0673376809767528885364276 : ℝ) ≤ Real.sin (2.15643756841119147134 / 32 : ℝ) ∧ Real.sin (2.15643756841119147134 / 32 : ℝ) ≤ (0.0673376809767557947128052 : ℝ))) :=
    cos_sin_double (by norm_num) h11.1.1 h11.1.2 h11.2.1 h11.2.2 (by norm_num) (by norm_num) (by norm_num) (by norm_num) (by norm_num) (by norm_num)
  have h13 : (((0.9909312734408858396343154 : ℝ) ≤ Real.cos (2.15643756841119147134 / 16 : ℝ) ∧ Real.cos (2.15643756841119147134 / 16 : ℝ) ≤ (0.9909312734413964675215134 : ℝ)) ∧ ((0.1343696815353373636571749 : ℝ) ≤ Real.sin (2.15643756841119147134 / 16 : ℝ) ∧ Real.sin (2.15643756841119147134 / 16 : ℝ) ≤ (0.1343696815353603941771907 : ℝ))) :=
    cos_sin_double (by norm_num) h12.1.1 h12.1.2 h12.2.1 h12.2.2 (by norm_num) (by norm_num) (by norm_num) (by norm_num) (by norm_num) (by norm_num)
  have h14 : (((0.9638895773663513236547847 : ℝ) ≤ Real.cos (2.15643756841119147134 / 8 : ℝ) ∧ Real.cos (2.15643756841119147134 / 8 : ℝ) ≤ (0.9638895773683753122248474 : ℝ)) ∧ ((0.266302239271316276236742 : ℝ) ≤ Real.sin (2.15643756841119147134 / 8 : ℝ) ∧ Real.sin (2.15643756841119147134 / 8 : ℝ) ≤ (0.2663022392714991453749684 : ℝ))) :=
    cos_sin_double (by norm_num) h13.1.1 h13.1.2 h13.2.1 h13.2.2 (by norm_num) (by norm_num) (by norm_num) (by norm_num) (by norm_num) (by norm_num)
  have h15 : (((0.8581662347109667478324286 : ℝ) ≤ Real.cos (2.15643756841119147134 / 4 : ℝ) ∧ Real.cos (2.15643756841119147134 / 4 : ℝ) ≤ (0.8581662347187703537820051 : ℝ)) ∧ ((0.5133719057258840231686566 : ℝ) ≤ Real.sin (2.15643756841119147134 / 4 : ℝ) ∧ Real.sin (2.15643756841119147134 / 4 : ℝ) ≤ (0.5133719057273145398583087 : ℝ))) :=
    cos_sin_double (by norm_num) h14.1.1 h14.1.2 h14.2.1 h14.2.2 (by norm_num) (by norm_num) (by norm_num) (by norm_num) (by norm_num) (by norm_num)
  have h16 : (((0.472898572795996138957279 : ℝ) ≤ Real.cos (2.15643756841119147134 / 2 : ℝ) ∧ Real.cos (2.15643756841119147134 / 2 : ℝ) ≤ (0.4728985728227833034970656 : ℝ)) ∧ ((0.8811168706863505654517653 : ℝ) ≤ Real.sin (2.15643756841119147134 / 2 : ℝ) ∧ Real.sin (2.15643756841119147134 / 2 : ℝ) ≤ (0.8811168706968181118100235 : ℝ))) :=
    cos_sin_double (by norm_num) h15.1.1 h15.1.2 h15.2.1 h15.2.2 (by norm_num) (by norm_num) (by norm_num) (by norm_num) (by norm_num) (by norm_num)
  have h17 : (((-0.5527338796950198810111371 : ℝ) ≤ Real.cos (2.15643756841119147134 : ℝ) ∧ Real.cos (2.15643756841119147134 : ℝ) ≤ (-0.5527338796443494334892355 : ℝ)) ∧ ((0.8333578212280989386599749 : ℝ) ≤ Real.sin (2.15643756841119147134 : ℝ) ∧ Real.sin (2.15643756841119147134 : ℝ) ≤ (0.8333578212852043593152426 : ℝ))) :=
    cos_sin_double (by norm_num) h16.1.1 h16.1.2 h16.2.1 h16.2.2 (by norm_num) (by norm_num) (by norm_num) (by norm_num) (by norm_num) (by norm_num)
  exact h17

/-- Certified rational bounds on cos and sin at 1.41200366373154733064, from a degree-3
Taylor base at 1.41200366373154733064 / 2^16 followed by 16 exact double-angle steps. -/
theorem c1_chain_m2 :
    (((0.1581261747629773004115702 : ℝ) ≤ Real.cos (1.41200366373154733064 : ℝ) ∧ Real.cos (1.41200366373154733064 : ℝ) ≤ (0.158126174830396029666103 : ℝ)) ∧ ((0.9874189145291701778717454 : ℝ) ≤ Real.sin (1.41200366373154733064 : ℝ) ∧ Real.sin (1.41200366373154733064 : ℝ) ≤ (0.987418914566121560673332 : ℝ))) := by
  have h0 : (((0.9999999997678964461097819 : ℝ) ≤ Real.cos (1.41200366373154733064 / 65536 : ℝ) ∧ Real.cos (1.41200366373154733064 / 65536 : ℝ) ≤ (0.9999999997678964461322287 : ℝ)) ∧ ((0.0000215454660586899247074 : ℝ) ≤ Real.sin (1.41200366373154733064 / 65536 : ℝ) ∧ Real.sin (1.41200366373154733064 / 65536 : ℝ) ≤ (0.0000215454660586899471542 : ℝ))) :=
    cos_sin_base (by norm_num) (by norm_num) (by norm_num) (by norm_num) (by norm_num) (by norm_num)
  have h1 : (((0.9999999990715857845468717 : ℝ) ≤ Real.cos (1.41200366373154733064 / 32768 : ℝ) ∧ Real.cos (1.41200366373154733064 / 32768 : ℝ) ≤ (0.999999999071585784636659 : ℝ)) ∧ ((0.0000430909321073782909299 : ℝ) ≤ Real.sin (1.41200366373154733064 / 32768 : ℝ) ∧ Real.sin (1.41200366373154733064 / 32768 : ℝ) ≤ (0.0000430909321073783358245 : ℝ))) :=
    cos_sin_double (by norm_num) h0.1.1 h0.1.2 h0.2.1 h0.2.2 (by norm_num) (by norm_num) (by norm_num) (by norm_num) (by norm_num) (by norm_num)
  have h2 : (((0.9999999962863431399113927 : ℝ) ≤ Real.cos (1.41200366373154733064 / 16384 : ℝ) ∧ Real.cos (1.41200366373154733064 / 16384 : ℝ) ≤ (0.999999996286343140270542 : ℝ)) ∧ ((0.0000861818641347441140085 : ℝ) ≤ Real.sin (1.41200366373154733064 / 16384 : ℝ) ∧ Real.sin (1.41200366373154733064 / 16384 : ℝ) ≤ (0.0000861818641347442038056 : ℝ))) :=
    cos_sin_double (by norm_num) h1.1.1 h1.1.2 h1.2.1 h1.2.2 (by norm_num) (by norm_num) (by norm_num) (by norm_num) (by norm_num) (by norm_num)
  have h3 : (((0.9999999851453725872280653 : ℝ) ≤ Real.cos (1.41200366373154733064 / 8192 : ℝ) ∧ Real.cos (1.41200366373154733064 / 8192 : ℝ) ≤ (0.9999999851453725886646626 : ℝ)) ∧ ((0.0001723637276293884860985 : ℝ) ≤ Real.sin (1.41200366373154733064 / 8192 : ℝ) ∧ Real.sin (1.41200366373154733064 / 8192 : ℝ) ≤ (0.0001723637276293886657547 : ℝ))) :=
    cos_sin_double (by norm_num) h2.1.1 h2.1.2 h2.2.1 h2.2.2 (by norm_num) (by norm_num) (by norm_num) (by norm_num) (by norm_num) (by norm_num)
  have h4 : (((0.9999999405814907902321723 : ℝ) ≤ Real.cos (1.41200366373154733064 / 4096 : ℝ) ∧ Real.cos (1.41200366373154733064 / 4096 : ℝ) ≤ (0.9999999405814907959785615 : ℝ)) ∧ ((0.0003447274501379790653748 : ℝ) ≤ Real.sin (1.41200366373154733064 / 4096 : ℝ) ∧ Real.sin (1.41200366373154733064 / 4096 : ℝ) ≤ (0.0003447274501379794251825 : ℝ))) :=
    cos_sin_double (by norm_num) h3.1.1 h3.1.2 h3.2.1 h3.2.2 (by norm_num) (by norm_num) (by norm_num) (by norm_num) (by norm_num) (by norm_num)
  have h5 : (((0.9999997623259702220471626 : ℝ) ≤ Real.cos (1.41200366373154733064 / 2048 : ℝ) ∧ Real.cos (1.41200366373154733064 / 2048 : ℝ) ≤ (0.9999997623259702450327181 : ℝ)) ∧ ((0.000689454859309575788983 : ℝ) ≤ Real.sin (1.41200366373154733064 / 2048 : ℝ) ∧ Real.sin (1.41200366373154733064 / 2048 : ℝ) ≤ (0.0006894548593095765125603 : ℝ))) :=
    cos_sin_double (by norm_num) h4.1.1 h4.1.2 h4.2.1 h4.2.2 (by norm_num) (by norm_num) (by norm_num) (by norm_num) (by norm_num) (by norm_num)
  have h6 : (((0.9999990493039938660775121 : ℝ) ≤ Real.cos (1.41200366373154733064 / 1024 : ℝ) ∧ Real.cos (1.41200366373154733064 / 1024 : ℝ) ≤ (0.9999990493039939580197124 : ℝ)) ∧ ((0.0013789093908881220537691 : ℝ) ≤ Real.sin (1.41200366373154733064 / 1024 : ℝ) ∧ Real.sin (1.41200366373154733064 / 1024 : ℝ) ≤ (0.0013789093908881235326185 : ℝ))) :=
    cos_sin_double (by norm_num) h5.1.1 h5.1.2 h5.2.1 h5.2.2 (by norm_num) (by norm_num) (by norm_num) (by norm_num) (by norm_num) (by norm_num)
  have h7 : (((0.9999961972177831101022063 : ℝ) ≤ Real.cos (1.41200366373154733064 / 512 : ℝ) ∧ Real.cos (1.41200366373154733064 / 512 : ℝ) ≤ (0.999996197217783477870658 : ℝ)) ∧ ((0.0027578161599289426317433 : ℝ) ≤ Real.sin (1.41200366373154733064 / 512 : ℝ) ∧ Real.sin (1.41200366373154733064 / 512 : ℝ) ≤ (0.0027578161599289458429994 : ℝ))) :=
    cos_sin_double (by norm_num) h6.1.1 h6.1.2 h6.2.1 h6.2.2 (by norm_num) (by norm_num) (by norm_num) (by norm_num) (by norm_num) (by norm_num)
  have h8 : (((0.9999847889000547455870132 : ℝ) ≤ Real.cos (1.41200366373154733064 / 256 : ℝ) ∧ Real.cos (1.41200366373154733064 / 256 : ℝ) ≤ (0.999984788900056216655226 : ℝ)) ∧ ((0.0055156113451093844047478 : ℝ) ≤ Real.sin (1.41200366373154733064 / 256 : ℝ) ∧ Real.sin (1.41200366373154733064 / 256 : ℝ) ≤ (0.0055156113451093928557112 : ℝ))) :=
    cos_sin_double (by norm_num) h7.1.1 h7.1.2 h7.2.1 h7.2.2 (by norm_num) (by norm_num) (by norm_num) (by norm_num) (by norm_num) (by norm_num)
  have h9 : (((0.9999391560629741054370904 : ℝ) ≤ Real.cos (1.41200366373154733064 / 128 : ℝ) ∧ Real.cos (1.41200366373154733064 / 128 : ℝ) ≤ (0.9999391560629799896204354 : ℝ)) ∧ ((0.011031054893187909533543 : ℝ) ≤ Real.sin (1.41200366373154733064 / 128 : ℝ) ∧ Real.sin (1.41200366373154733064 / 128 : ℝ) ≤ (0.0110310548931879426628938 : ℝ))) :=
    cos_sin_double (by norm_num) h8.1.1 h8.1.2 h8.2.1 h8.2.2 (by norm_num) (by norm_num) (by norm_num) (by norm_num) (by norm_num) (by norm_num)
  have h10 : (((0.9997566316558657673704082 : ℝ) ≤ Real.cos (1.41200366373154733064 / 64 : ℝ) ∧ Real.cos (1.41200366373154733064 / 64 : ℝ) ≤ (0.9997566316558893026717207 : ℝ)) ∧ ((0.0220607674407573184446025 : ℝ) ≤ Real.sin (1.41200366373154733064 / 64 : ℝ) ∧ Real.sin (1.41200366373154733064 / 64 : ℝ) ≤ (0.0220607674407575145167717 : ℝ))) :=
    cos_sin_double (by norm_num) h9.1.1 h9.1.2 h9.2.1 h9.2.2 (by norm_num) (by norm_num) (by norm_num) (by norm_num) (by norm_num) (by norm_num)
  have h11 : (((0.9990266450797649227581959 : ℝ) ≤ Real.cos (1.41200366373154733064 / 32 : ℝ) ∧ Real.cos (1.41200366373154733064 / 32 : ℝ) ≤ (0.9990266450798590410524567 : ℝ)) ∧ ((0.0441107970966298618861647 : ℝ) ≤ Real.sin (1.41200366373154733064 / 32 : ℝ) ∧ Real.sin (1.41200366373154733064 / 32 : ℝ) ≤ (0.0441107970966312923486855 : ℝ))) :=
    cos_sin_double (by norm_num) h10.1.1 h10.1.2 h10.2.1 h10.2.2 (by norm_num) (by norm_num) (by norm_num) (by norm_num) (by norm_num) (by norm_num)
  have h12 : (((0.9961084751586611826999432 : ℝ) ≤ Real.cos (1.41200366373154733064 / 16 : ℝ) ∧ Real.cos (1.41200366373154733064 / 16 : ℝ) ≤ (0.9961084751590372894349673 : ℝ)) ∧ ((0.0881357232704807321003272 : ℝ) ≤ Real.sin (1.41200366373154733064 / 16 : ℝ) ∧ Real.sin (1.41200366373154733064 / 16 : ℝ) ≤ (0.0881357232704918935066359 : ℝ))) :=
    cos_sin_double (by norm_num) h11.1.1 h11.1.2 h11.2.1 h11.2.2 (by norm_num) (by norm_num) (by norm_num) (by norm_num) (by norm_num) (by norm_num)
  have h13 : (((0.9844641885658262450140939 : ℝ) ≤ Real.cos (1.41200366373154733064 / 8 : ℝ) ∧ Real.cos (1.41200366373154733064 / 8 : ℝ) ≤ (0.9844641885673248174393813 : ℝ)) ∧ ((0.1755854818279285853230997 : ℝ) ≤ Real.sin (1.41200366373154733064 / 8 : ℝ) ∧ Real.sin (1.41200366373154733064 / 8 : ℝ) ≤ (0.1755854818280171181441738 : ℝ))) :=
    cos_sin_double (by norm_num) h12.1.1 h12.1.2 h12.2.1 h12.2.2 (by norm_num) (by norm_num) (by norm_num) (by norm_num) (by norm_num) (by norm_num)
  have h14 : (((0.9383394771371413880278746 : ℝ) ≤ Real.cos (1.41200366373154733064 / 4 : ℝ) ∧ Real.cos (1.41200366373154733064 / 4 : ℝ) ≤ (0.9383394771430425515745499 : ℝ)) ∧ ((0.3457152377833426886675626 : ℝ) ≤ Real.sin (1.41200366373154733064 / 4 : ℝ) ∧ Real.sin (1.41200366373154733064 / 4 : ℝ) ≤ (0.3457152377840432585739795 : ℝ))) :=
    cos_sin_double (by norm_num) h13.1.1 h13.1.2 h13.2.1 h13.2.2 (by norm_num) (by norm_num) (by norm_num) (by norm_num) (by norm_num) (by norm_num)
  have h15 : (((0.7609619487080077713061351 : ℝ) ≤ Real.cos (1.41200366373154733064 / 2 : ℝ) ∧ Real.cos (1.41200366373154733064 / 2 : ℝ) ≤ (0.7609619487301569501737571 : ℝ)) ∧ ((0.6487965109199285707361777 : ℝ) ≤ Real.sin (1.41200366373154733064 / 2 : ℝ) ∧ Real.sin (1.41200366373154733064 / 2 : ℝ) ≤ (0.648796510925323559853031 : ℝ))) :=
    cos_sin_double (by norm_num) h14.1.1 h14.1.2 h14.2.1 h14.2.2 (by norm_num) (by norm_num) (by norm_num) (by norm_num) (by norm_num) (by norm_num)
  have h16 : (((0.1581261747629773004115702 : ℝ) ≤ Real.cos (1.41200366373154733064 : ℝ) ∧ Real.cos (1.41200366373154733064 : ℝ) ≤ (0.158126174830396029666103 : ℝ)) ∧ ((0.9874189145291701778717454 : ℝ) ≤ Real.sin (1.41200366373154733064 : ℝ) ∧ Real.sin (1.41200366373154733064 : ℝ) ≤ (0.987418914566121560673332 : ℝ))) :=
    cos_sin_double (by norm_num) h15.1.1 h15.1.2 h15.2.1 h15.2.2 (by norm_num) (by norm_num) (by norm_num) (by norm_num) (by norm_num) (by norm_num)
  exact h16

/-- Certified rational bounds on cos and sin at 1.1422414387852008635, from a degree-3
Taylor base at 1.1422414387852008635 / 2^16 followed by 16 exact double-angle steps. -/
theorem c1_chain_m3 :
    (((0.4155568102674694239749525 : ℝ) ≤ Real.cos (1.1422414387852008635 : ℝ) ∧ Real.cos (1.1422414387852008635 : ℝ) ≤ (0.4155568103003457782939843 : ℝ)) ∧ ((0.9095672253292789522128902 : ℝ) ≤ Real.sin (1.1422414387852008635 : ℝ) ∧ Real.sin (1.1422414387852008635 : ℝ) ≤ (0.9095672253430414477506073 : ℝ))) := by
  have h0 : (((0.9999999998481111246487857 : ℝ) ≤ Real.cos (1.1422414387852008635 / 65536 : ℝ) ∧ Real.cos (1.1422414387852008635 / 65536 : ℝ) ≤ (0.9999999998481111246583984 : ℝ)) ∧ ((0.0000174292211719874464825 : ℝ) ≤ Real.sin (1.1422414387852008635 / 65536 : ℝ) ∧ Real.sin (1.1422414387852008635 / 65536 : ℝ) ≤ (0.0000174292211719874560952 : ℝ))) :=
    cos_sin_base (by norm_num) (by norm_num) (by norm_num) (by norm_num) (by norm_num) (by norm_num)
  have h1 : (((0.9999999993924444986412832 : ℝ) ≤ Real.cos (1.1422414387852008635 / 32768 : ℝ) ∧ Real.cos (1.1422414387852008635 / 32768 : ℝ) ≤ (0.9999999993924444986797341 : ℝ)) ∧ ((0.0000348584423386802833608 : ℝ) ≤ Real.sin (1.1422414387852008635 / 32768 : ℝ) ∧ Real.sin (1.1422414387852008635 / 32768 : ℝ) ≤ (0.0000348584423386803025867 : ℝ))) :=
    cos_sin_double (by norm_num) h0.1.1 h0.1.2 h0.2.1 h0.2.2 (by norm_num) (by norm_num) (by norm_num) (by norm_num) (by norm_num) (by norm_num)
  have h2 : (((0.9999999975697779953033801 : ℝ) ≤ Real.cos (1.1422414387852008635 / 16384 : ℝ) ∧ Real.cos (1.1422414387852008635 / 16384 : ℝ) ≤ (0.9999999975697779954571838 : ℝ)) ∧ ((0.0000697168846350036898982 : ℝ) ≤ Real.sin (1.1422414387852008635 / 16384 : ℝ) ∧ Real.sin (1.1422414387852008635 / 16384 : ℝ) ≤ (0.0000697168846350037283528 : ℝ))) :=
    cos_sin_double (by norm_num) h1.1.1 h1.1.2 h1.2.1 h1.2.2 (by norm_num) (by norm_num) (by norm_num) (by norm_num) (by norm_num) (by norm_num)
  have h3 : (((0.9999999902791119930254783 : ℝ) ≤ Real.cos (1.1422414387852008635 / 8192 : ℝ) ∧ Real.cos (1.1422414387852008635 / 8192 : ℝ) ≤ (0.9999999902791119936406932 : ℝ)) ∧ ((0.0001394337689311523655186 : ℝ) ≤ Real.sin (1.1422414387852008635 / 8192 : ℝ) ∧ Real.sin (1.1422414387852008635 / 8192 : ℝ) ≤ (0.0001394337689311524424493 : ℝ))) :=
    cos_sin_double (by norm_num) h2.1.1 h2.1.2 h2.2.1 h2.2.2 (by norm_num) (by norm_num) (by norm_num) (by norm_num) (by norm_num) (by norm_num)
  have h4 : (((0.9999999611164481610932404 : ℝ) ≤ Real.cos (1.1422414387852008635 / 4096 : ℝ) ∧ Real.cos (1.1422414387852008635 / 4096 : ℝ) ≤ (0.9999999611164481635541001 : ℝ)) ∧ ((0.000278867535151464626697 : ℝ) ≤ Real.sin (1.1422414387852008635 / 4096 : ℝ) ∧ Real.sin (1.1422414387852008635 / 4096 : ℝ) ≤ (0.00027886753515146478073 : ℝ))) :=
    cos_sin_double (by norm_num) h3.1.1 h3.1.2 h3.2.1 h3.2.2 (by norm_num) (by norm_num) (by norm_num) (by norm_num) (by norm_num) (by norm_num)
  have h5 : (((0.9999998444657956682341688 : ℝ) ≤ Real.cos (1.1422414387852008635 / 2048 : ℝ) ∧ Real.cos (1.1422414387852008635 / 2048 : ℝ) ≤ (0.9999998444657956780776073 : ℝ)) ∧ ((0.0005577350486162087348937 : ℝ) ≤ Real.sin (1.1422414387852008635 / 2048 : ℝ) ∧ Real.sin (1.1422414387852008635 / 2048 : ℝ) ≤ (0.0005577350486162090443323 : ℝ))) :=
    cos_sin_double (by norm_num) h4.1.1 h4.1.2 h4.2.1 h4.2.2 (by norm_num) (by norm_num) (by norm_num) (by norm_num) (by norm_num) (by norm_num)
  have h6 : (((0.9999993778632310547141094 : ℝ) ≤ Real.cos (1.1422414387852008635 / 1024 : ℝ) ∧ Real.cos (1.1422414387852008635 / 1024 : ℝ) ≤ (0.9999993778632310940878574 : ℝ)) ∧ ((0.0011154699237386634408658 : ℝ) ≤ Real.sin (1.1422414387852008635 / 1024 : ℝ) ∧ Real.sin (1.1422414387852008635 / 1024 : ℝ) ≤ (0.0011154699237386640707231 : ℝ))) :=
    cos_sin_double (by norm_num) h5.1.1 h5.1.2 h5.2.1 h5.2.2 (by norm_num) (by norm_num) (by norm_num) (by norm_num) (by norm_num) (by norm_num)
  have h7 : (((0.9999975114536983271749849 : ℝ) ≤ Real.cos (1.1422414387852008635 / 512 : ℝ) ∧ Real.cos (1.1422414387852008635 / 512 : ℝ) ≤ (0.999997511453698484669879 : ℝ)) ∧ ((0.0022309384595276184608985 : ℝ) ≤ Real.sin (1.1422414387852008635 / 512 : ℝ) ∧ Real.sin (1.1422414387852008635 / 512 : ℝ) ≤ (0.0022309384595276198084529 : ℝ))) :=
    cos_sin_double (by norm_num) h6.1.1 h6.1.2 h6.2.1 h6.2.2 (by norm_num) (by norm_num) (by norm_num) (by norm_num) (by norm_num) (by norm_num)
  have h8 : (((0.9999900458271790340910785 : ℝ) ≤ Real.cos (1.1422414387852008635 / 256 : ℝ) ∧ Real.cos (1.1422414387852008635 / 256 : ℝ) ≤ (0.9999900458271796640690873 : ℝ)) ∧ ((0.0044618658154679314875483 : ℝ) ≤ Real.sin (1.1422414387852008635 / 256 : ℝ) ∧ Real.sin (1.1422414387852008635 / 256 : ℝ) ≤ (0.0044618658154679348853733 : ℝ))) :=
    cos_sin_double (by norm_num) h7.1.1 h7.1.2 h7.2.1 h7.2.2 (by norm_num) (by norm_num) (by norm_num) (by norm_num) (by norm_num) (by norm_num)
  have h9 : (((0.9999601835068872494636268 : ℝ) ≤ Real.cos (1.1422414387852008635 / 128 : ℝ) ∧ Real.cos (1.1422414387852008635 / 128 : ℝ) ≤ (0.9999601835068897693505784 : ℝ)) ∧ ((0.0089236428025690007195462 : ℝ) ≤ Real.sin (1.1422414387852008635 / 128 : ℝ) ∧ Real.sin (1.1422414387852008635 / 128 : ℝ) ≤ (0.0089236428025690131368833 : ℝ))) :=
    cos_sin_double (by norm_num) h8.1.1 h8.1.2 h8.2.1 h8.2.2 (by norm_num) (by norm_num) (by norm_num) (by norm_num) (by norm_num) (by norm_num)
  have h10 : (((0.9998407371982552454499289 : ℝ) ≤ Real.cos (1.1422414387852008635 / 64 : ℝ) ∧ Real.cos (1.1422414387852008635 / 64 : ℝ) ≤ (0.9998407371982653245964032 : ℝ)) ∧ ((0.0178465749888136231700692 : ℝ) ≤ Real.sin (1.1422414387852008635 / 64 : ℝ) ∧ Real.sin (1.1422414387852008635 / 64 : ℝ) ≤ (0.0178465749888136929768968 : ℝ))) :=
    cos_sin_double (by norm_num) h9.1.1 h9.1.2 h9.2.1 h9.2.2 (by norm_num) (by norm_num) (by norm_num) (by norm_num) (by norm_num) (by norm_num)
  have h11 : (((0.9993629995223010209777015 : ℝ) ≤ Real.cos (1.1422414387852008635 / 32 : ℝ) ∧ Real.cos (1.1422414387852008635 / 32 : ℝ) ≤ (0.9993629995223413311426663 : ℝ)) ∧ ((0.0356874653865587137017001 : ℝ) ≤ Real.sin (1.1422414387852008635 / 32 : ℝ) ∧ Real.sin (1.1422414387852008635 / 32 : ℝ) ≤ (0.0356874653865592130496069 : ℝ))) :=
    cos_sin_double (by norm_num) h10.1.1 h10.1.2 h10.2.1 h10.2.2 (by norm_num) (by norm_num) (by norm_num) (by norm_num) (by norm_num) (by norm_num)
  have h12 : (((0.9974528096284212613657474 : ℝ) ≤ Real.cos (1.1422414387852008635 / 16 : ℝ) ∧ Real.cos (1.1422414387852008635 / 16 : ℝ) ≤ (0.9974528096285823993152293 : ℝ)) ∧ ((0.0713294649081192200440388 : ℝ) ≤ Real.sin (1.1422414387852008635 / 16 : ℝ) ∧ Real.sin (1.1422414387852008635 / 16 : ℝ) ≤ (0.0713294649081230952389166 : ℝ))) :=
    cos_sin_double (by norm_num) h11.1.1 h11.1.2 h11.2.1 h11.2.2 (by norm_num) (by norm_num) (by norm_num) (by norm_num) (by norm_num) (by norm_num)
  have h13 : (((0.9898242148712631723281782 : ℝ) ≤ Real.cos (1.1422414387852008635 / 8 : ℝ) ∧ Real.cos (1.1422414387852008635 / 8 : ℝ) ≤ (0.9898242148719060823299723 : ℝ)) ∧ ((0.1422955503637907904998394 : ℝ) ≤ Real.sin (1.1422414387852008635 / 8 : ℝ) ∧ Real.sin (1.1422414387852008635 / 8 : ℝ) ≤ (0.1422955503638215089153028 : ℝ))) :=
    cos_sin_double (by norm_num) h12.1.1 h12.1.2 h12.2.1 h12.2.2 (by norm_num) (by norm_num) (by norm_num) (by norm_num) (by norm_num) (by norm_num)
  have h14 : (((0.9595039526910251324657411 : ℝ) ≤ Real.cos (1.1422414387852008635 / 4 : ℝ) ∧ Real.cos (1.1422414387852008635 / 4 : ℝ) ≤ (0.959503952693570604016777 : ℝ)) ∧ ((0.2816951628370270117701652 : ℝ) ≤ Real.sin (1.1422414387852008635 / 4 : ℝ) ∧ Real.sin (1.1422414387852008635 / 4 : ℝ) ≤ (0.281695162837270789898181 : ℝ))) :=
    cos_sin_double (by norm_num) h13.1.1 h13.1.2 h13.2.1 h13.2.2 (by norm_num) (by norm_num) (by norm_num) (by norm_num) (by norm_num) (by norm_num)
  have h15 : (((0.8412956704594019910838398 : ℝ) ≤ Real.cos (1.1422414387852008635 / 2 : ℝ) ∧ Real.cos (1.1422414387852008635 / 2 : ℝ) ≤ (0.8412956704691715511425788 : ℝ)) ∧ ((0.5405752443921387738772782 : ℝ) ≤ Real.sin (1.1422414387852008635 / 2 : ℝ) ∧ Real.sin (1.1422414387852008635 / 2 : ℝ) ≤ (0.5405752443940406800782333 : ℝ))) :=
    cos_sin_double (by norm_num) h14.1.1 h14.1.2 h14.2.1 h14.2.2 (by norm_num) (by norm_num) (by norm_num) (by norm_num) (by norm_num) (by norm_num)
  have h16 : (((0.4155568102674694239749525 : ℝ) ≤ Real.cos (1.1422414387852008635 : ℝ) ∧ Real.cos (1.1422414387852008635 : ℝ) ≤ (0.4155568103003457782939843 : ℝ)) ∧ ((0.9095672253292789522128902 : ℝ) ≤ Real.sin (1.1422414387852008635 : ℝ) ∧ Real.sin (1.1422414387852008635 : ℝ) ≤ (0.9095672253430414477506073 : ℝ))) :=
    cos_sin_double (by norm_num) h15.1.1 h15.1.2 h15.2.1 h15.2.2 (by norm_num) (by norm_num) (by norm_num) (by norm_num) (by norm_num) (by norm_num)
  exact h16

/-- Certified rational bounds on cos and sin at 1.0917309431513394377, from a degree-3
Taylor base at 1.0917309431513394377 / 2^15 followed by 15 exact double-angle steps. -/
theorem c1_chain_m4 :
    (((0.460949973914614500504635 : ℝ) ≤ Real.cos (1.0917309431513394377 : ℝ) ∧ Real.cos (1.0917309431513394377 : ℝ) ≤ (0.4609499740266378077011417 : ℝ)) ∧ ((0.8874261216485608422356656 : ℝ) ≤ Real.sin (1.0917309431513394377 : ℝ) ∧ Real.sin (1.0917309431513394377 : ℝ) ≤ (0.88742612169298745190856 : ℝ))) := by
  have h0 : (((0.9999999994449892768767073 : ℝ) ≤ Real.cos (1.0917309431513394377 / 32768 : ℝ) ∧ Real.cos (1.0917309431513394377 / 32768 : ℝ) ≤ (0.9999999994449892770050561 : ℝ)) ∧ ((0.0000333169843429371096228 : ℝ) ≤ Real.sin (1.0917309431513394377 / 32768 : ℝ) ∧ Real.sin (1.0917309431513394377 / 32768 : ℝ) ≤ (0.0000333169843429372379716 : ℝ))) :=
    cos_sin_base (by norm_num) (by norm_num) (by norm_num) (by norm_num) (by norm_num) (by norm_num)
  have h1 : (((0.999999997779957108122903 : ℝ) ≤ Real.cos (1.0917309431513394377 / 16384 : ℝ) ∧ Real.cos (1.0917309431513394377 / 16384 : ℝ) ≤ (0.9999999977799571086362983 : ℝ)) ∧ ((0.0000666339686488916521006 : ℝ) ≤ Real.sin (1.0917309431513394377 / 16384 : ℝ) ∧ Real.sin (1.0917309431513394377 / 16384 : ℝ) ≤ (0.0000666339686488919088069 : ℝ))) :=
    cos_sin_double (by norm_num) h0.1.1 h0.1.2 h0.2.1 h0.2.2 (by norm_num) (by norm_num) (by norm_num) (by norm_num) (by norm_num) (by norm_num)
  have h2 : (((0.9999999911198284423487928 : ℝ) ≤ Real.cos (1.0917309431513394377 / 8192 : ℝ) ∧ Real.cos (1.0917309431513394377 / 8192 : ℝ) ≤ (0.9999999911198284444023741 : ℝ)) ∧ ((0.0001332679370019227672881 : ℝ) ≤ Real.sin (1.0917309431513394377 / 8192 : ℝ) ∧ Real.sin (1.0917309431513394377 / 8192 : ℝ) ≤ (0.0001332679370019232807692 : ℝ))) :=
    cos_sin_double (by norm_num) h1.1.1 h1.1.2 h1.2.1 h1.2.2 (by norm_num) (by norm_num) (by norm_num) (by norm_num) (by norm_num) (by norm_num)
  have h3 : (((0.9999999644793139271100649 : ℝ) ≤ Real.cos (1.0917309431513394377 / 4096 : ℝ) ∧ Real.cos (1.0917309431513394377 / 4096 : ℝ) ≤ (0.9999999644793139353243902 : ℝ)) ∧ ((0.0002665358716369612471535 : ℝ) ≤ Real.sin (1.0917309431513394377 / 4096 : ℝ) ∧ Real.sin (1.0917309431513394377 / 4096 : ℝ) ≤ (0.0002665358716369622746631 : ℝ))) :=
    cos_sin_double (by norm_num) h2.1.1 h2.1.2 h2.2.1 h2.2.2 (by norm_num) (by norm_num) (by norm_num) (by norm_num) (by norm_num) (by norm_num)
  have h4 : (((0.9999998579172582318785377 : ℝ) ≤ Real.cos (1.0917309431513394377 / 2048 : ℝ) ∧ Real.cos (1.0917309431513394377 / 2048 : ℝ) ≤ (0.9999998579172582647358379 : ℝ)) ∧ ((0.0005330717243388484471458 : ℝ) ≤ Real.sin (1.0917309431513394377 / 2048 : ℝ) ∧ Real.sin (1.0917309431513394377 / 2048 : ℝ) ≤ (0.0005330717243388505065438 : ℝ))) :=
    cos_sin_double (by norm_num) h3.1.1 h3.1.2 h3.2.1 h3.2.2 (by norm_num) (by norm_num) (by norm_num) (by norm_num) (by norm_num) (by norm_num)
  have h5 : (((0.9999994316690733025251674 : ℝ) ≤ Real.cos (1.0917309431513394377 / 1024 : ℝ) ∧ Real.cos (1.0917309431513394377 / 1024 : ℝ) ≤ (0.9999994316690734339543497 : ℝ)) ∧ ((0.0010661432971971125880439 : ℝ) ≤ Real.sin (1.0917309431513394377 / 1024 : ℝ) ∧ Real.sin (1.0917309431513394377 / 1024 : ℝ) ≤ (0.00106614329719711674187 : ℝ))) :=
    cos_sin_double (by norm_num) h4.1.1 h4.1.2 h4.2.1 h4.2.2 (by norm_num) (by norm_num) (by norm_num) (by norm_num) (by norm_num) (by norm_num)
  have h6 : (((0.9999977266769392101851512 : ℝ) ≤ Real.cos (1.0917309431513394377 / 512 : ℝ) ∧ Real.cos (1.0917309431513394377 / 512 : ℝ) ≤ (0.9999977266769397359015817 : ℝ)) ∧ ((0.0021322853825498089994151 : ℝ) ≤ Real.sin (1.0917309431513394377 / 512 : ℝ) ∧ Real.sin (1.0917309431513394377 / 512 : ℝ) ≤ (0.0021322853825498175873074 : ℝ))) :=
    cos_sin_double (by norm_num) h5.1.1 h5.1.2 h5.2.1 h5.2.2 (by norm_num) (by norm_num) (by norm_num) (by norm_num) (by norm_num) (by norm_num)
  have h7 : (((0.9999909067180928362180423 : ℝ) ≤ Real.cos (1.0917309431513394377 / 256 : ℝ) ∧ Real.cos (1.0917309431513394377 / 256 : ℝ) ≤ (0.9999909067180949390789839 : ℝ)) ∧ ((0.004264561070352553327804 : ℝ) ≤ Real.sin (1.0917309431513394377 / 256 : ℝ) ∧ Real.sin (1.0917309431513394377 / 256 : ℝ) ≤ (0.0042645610703525727455046 : ℝ))) :=
    cos_sin_double (by norm_num) h6.1.1 h6.1.2 h6.2.1 h6.2.2 (by norm_num) (by norm_num) (by norm_num) (by norm_num) (by norm_num) (by norm_num)
  have h8 : (((0.9999636270377468965584735 : ℝ) ≤ Real.cos (1.0917309431513394377 / 128 : ℝ) ∧ Real.cos (1.0917309431513394377 / 128 : ℝ) ≤ (0.9999636270377553079257524 : ℝ)) ∧ ((0.0085290445829930605918371 : ℝ) ≤ Real.sin (1.0917309431513394377 / 128 : ℝ) ∧ Real.sin (1.0917309431513394377 / 128 : ℝ) ≤ (0.008529044582993117362443 : ℝ))) :=
    cos_sin_double (by norm_num) h7.1.1 h7.1.2 h7.2.1 h7.2.2 (by norm_num) (by norm_num) (by norm_num) (by norm_num) (by norm_num) (by norm_num)
  have h9 : (((0.9998545107969723523652695 : ℝ) ≤ Real.cos (1.0917309431513394377 / 64 : ℝ) ∧ Real.cos (1.0917309431513394377 / 64 : ℝ) ≤ (0.9998545107970059966105998 : ℝ)) ∧ ((0.017057468712752776697722 : ℝ) ≤ Real.sin (1.0917309431513394377 / 64 : ℝ) ∧ Real.sin (1.0917309431513394377 / 64 : ℝ) ≤ (0.0170574687127530337166572 : ℝ))) :=
    cos_sin_double (by norm_num) h8.1.1 h8.1.2 h8.2.1 h8.2.2 (by norm_num) (by norm_num) (by norm_num) (by norm_num) (by norm_num) (by norm_num)
  have h10 : (((0.9994180855221058047012253 : ℝ) ≤ Real.cos (1.0917309431513394377 / 32 : ℝ) ∧ Real.cos (1.0917309431513394377 / 32 : ℝ) ≤ (0.9994180855222403621030489 : ℝ)) ∧ ((0.0341099740704481785232796 : ℝ) ≤ Real.sin (1.0917309431513394377 / 32 : ℝ) ∧ Real.sin (1.0917309431513394377 / 32 : ℝ) ≤ (0.0341099740704498402576873 : ℝ))) :=
    cos_sin_double (by norm_num) h9.1.1 h9.1.2 h9.2.1 h9.2.2 (by norm_num) (by norm_num) (by norm_num) (by norm_num) (by norm_num) (by norm_num)
  have h11 : (((0.9976730193373423845527192 : ℝ) ≤ Real.cos (1.0917309431513394377 / 16 : ℝ) ∧ Real.cos (1.0917309431513394377 / 16 : ℝ) ≤ (0.9976730193378803009564129 : ℝ)) ∧ ((0.068180249965391978263727 : ℝ) ≤ Real.sin (1.0917309431513394377 / 16 : ℝ) ∧ Real.sin (1.0917309431513394377 / 16 : ℝ) ≤ (0.0681802499654044792975422 : ℝ))) :=
    cos_sin_double (by norm_num) h10.1.1 h10.1.2 h10.2.1 h10.2.2 (by norm_num) (by norm_num) (by norm_num) (by norm_num) (by norm_num) (by norm_num)
  have h12 : (((0.990702907027378303161081 : ℝ) ≤ Real.cos (1.0917309431513394377 / 8 : ℝ) ∧ Real.cos (1.0917309431513394377 / 8 : ℝ) ≤ (0.9907029070295249618915784 : ℝ)) ∧ ((0.1360431916842946971509613 : ℝ) ≤ Real.sin (1.0917309431513394377 / 8 : ℝ) ∧ Real.sin (1.0917309431513394377 / 8 : ℝ) ≤ (0.1360431916843929915889926 : ℝ))) :=
    cos_sin_double (by norm_num) h11.1.1 h11.1.2 h11.2.1 h11.2.2 (by norm_num) (by norm_num) (by norm_num) (by norm_num) (by norm_num) (by norm_num)
  have h13 : (((0.96298449998499635612314 : ℝ) ≤ Real.cos (1.0917309431513394377 / 4 : ℝ) ∧ Real.cos (1.0917309431513394377 / 4 : ℝ) ≤ (0.9629844999935031603019473 : ℝ)) ∧ ((0.2695567709658272289141513 : ℝ) ≤ Real.sin (1.0917309431513394377 / 4 : ℝ) ∧ Real.sin (1.0917309431513394377 / 4 : ℝ) ≤ (0.2695567709666060666954639 : ℝ))) :=
    cos_sin_double (by norm_num) h12.1.1 h12.1.2 h12.2.1 h12.2.2 (by norm_num) (by norm_num) (by norm_num) (by norm_num) (by norm_num) (by norm_num)
  have h14 : (((0.8546782944227068940127058 : ℝ) ≤ Real.cos (1.0917309431513394377 / 2 : ℝ) ∧ Real.cos (1.0917309431513394377 / 2 : ℝ) ≤ (0.8546782944554745762872467 : ℝ)) ∧ ((0.5191579846121946346522238 : ℝ) ≤ Real.sin (1.0917309431513394377 / 2 : ℝ) ∧ Real.sin (1.0917309431513394377 / 2 : ℝ) ≤ (0.5191579846182807854064065 : ℝ))) :=
    cos_sin_double (by norm_num) h13.1.1 h13.1.2 h13.2.1 h13.2.2 (by norm_num) (by norm_num) (by norm_num) (by norm_num) (by norm_num) (by norm_num)
  have h15 : (((0.460949973914614500504635 : ℝ) ≤ Real.cos (1.0917309431513394377 : ℝ) ∧ Real.cos (1.0917309431513394377 : ℝ) ≤ (0.4609499740266378077011417 : ℝ)) ∧ ((0.8874261216485608422356656 : ℝ) ≤ Real.sin (1.0917309431513394377 : ℝ) ∧ Real.sin (1.0917309431513394377 : ℝ) ≤ (0.88742612169298745190856 : ℝ))) :=
    cos_sin_double (by norm_num) h14.1.1 h14.1.2 h14.2.1 h14.2.2 (by norm_num) (by norm_num) (by norm_num) (by norm_num) (by norm_num) (by norm_num)
  exact h15

/-- Certified rational bounds on cos and sin at 1.08996378260940573321, from a degree-3
Taylor base at 1.08996378260940573321 / 2^15 followed by 15 exact double-angle steps. -/
theorem c1_chain_m5 :
    (((0.4625174777850050488300568 : ℝ) ≤ Real.cos (1.08996378260940573321 : ℝ) ∧ Real.cos (1.08996378260940573321 : ℝ) ≤ (0.4625174778963827484427011 : ℝ)) ∧ ((0.8866101638151447703951092 : ℝ) ≤ Real.sin (1.08996378260940573321 : ℝ) ∧ Real.sin (1.08996378260940573321 : ℝ) ≤ (0.8866101638592305919285554 : ℝ))) := by
  have h0 : (((0.9999999994467845896551724 : ℝ) ≤ Real.cos (1.08996378260940573321 / 32768 : ℝ) ∧ Real.cos (1.08996378260940573321 / 32768 : ℝ) ≤ (0.9999999994467845897826922 : ℝ)) ∧ ((0.0000332630548830691138772 : ℝ) ≤ Real.sin (1.08996378260940573321 / 32768 : ℝ) ∧ Real.sin (1.08996378260940573321 / 32768 : ℝ) ≤ (0.0000332630548830692413971 : ℝ))) :=
    cos_sin_base (by norm_num) (by norm_num) (by norm_num) (by norm_num) (by norm_num) (by norm_num)
  have h1 : (((0.9999999977871383592327841 : ℝ) ≤ Real.cos (1.08996378260940573321 / 16384 : ℝ) ∧ Real.cos (1.08996378260940573321 / 16384 : ℝ) ≤ (0.9999999977871383597428634 : ℝ)) ∧ ((0.0000665261097293349586414 : ℝ) ≤ Real.sin (1.08996378260940573321 / 16384 : ℝ) ∧ Real.sin (1.08996378260940573321 / 16384 : ℝ) ≤ (0.0000665261097293352136898 : ℝ))) :=
    cos_sin_double (by norm_num) h0.1.1 h0.1.2 h0.2.1 h0.2.2 (by norm_num) (by norm_num) (by norm_num) (by norm_num) (by norm_num) (by norm_num)
  have h2 : (((0.9999999911485534467246496 : ℝ) ≤ Real.cos (1.08996378260940573321 / 8192 : ℝ) ∧ Real.cos (1.08996378260940573321 / 8192 : ℝ) ≤ (0.9999999911485534487649669 : ℝ)) ∧ ((0.0001330522191642437646237 : ℝ) ≤ Real.sin (1.08996378260940573321 / 8192 : ℝ) ∧ Real.sin (1.08996378260940573321 / 8192 : ℝ) ≤ (0.0001330522191642442747885 : ℝ))) :=
    cos_sin_double (by norm_num) h1.1.1 h1.1.2 h1.2.1 h1.2.2 (by norm_num) (by norm_num) (by norm_num) (by norm_num) (by norm_num) (by norm_num)
  have h3 : (((0.9999999645942139435948105 : ℝ) ≤ Real.cos (1.08996378260940573321 / 4096 : ℝ) ∧ Real.cos (1.08996378260940573321 / 4096 : ℝ) ≤ (0.9999999645942139517560797 : ℝ)) ∧ ((0.0002661044359730783157934 : ℝ) ≤ Real.sin (1.08996378260940573321 / 4096 : ℝ) ∧ Real.sin (1.08996378260940573321 / 4096 : ℝ) ≤ (0.000266104435973079336666 : ℝ))) :=
    cos_sin_double (by norm_num) h2.1.1 h2.1.2 h2.2.1 h2.2.2 (by norm_num) (by norm_num) (by norm_num) (by norm_num) (by norm_num) (by norm_num)
  have h4 : (((0.9999998583768582815186145 : ℝ) ≤ Real.cos (1.08996378260940573321 / 2048 : ℝ) ∧ Real.cos (1.08996378260940573321 / 2048 : ℝ) ≤ (0.9999998583768583141636902 : ℝ)) ∧ ((0.0005322088531028831741404 : ℝ) ≤ Real.sin (1.08996378260940573321 / 2048 : ℝ) ∧ Real.sin (1.08996378260940573321 / 2048 : ℝ) ≤ (0.0005322088531028852202291 : ℝ))) :=
    cos_sin_double (by norm_num) h3.1.1 h3.1.2 h3.2.1 h3.2.2 (by norm_num) (by norm_num) (by norm_num) (by norm_num) (by norm_num) (by norm_num)
  have h5 : (((0.9999994335074732403029984 : ℝ) ≤ Real.cos (1.08996378260940573321 / 1024 : ℝ) ∧ Real.cos (1.08996378260940573321 / 1024 : ℝ) ≤ (0.9999994335074733708832828 : ℝ)) ∧ ((0.0010644175554595866946406 : ℝ) ≤ Real.sin (1.08996378260940573321 / 1024 : ℝ) ∧ Real.sin (1.08996378260940573321 / 1024 : ℝ) ≤ (0.0010644175554595908215655 : ℝ))) :=
    cos_sin_double (by norm_num) h4.1.1 h4.1.2 h4.2.1 h4.2.2 (by norm_num) (by norm_num) (by norm_num) (by norm_num) (by norm_num) (by norm_num)
  have h6 : (((0.9999977340305347887777427 : ℝ) ≤ Real.cos (1.08996378260940573321 / 512 : ℝ) ∧ Real.cos (1.08996378260940573321 / 512 : ℝ) ≤ (0.9999977340305353110985845 : ℝ)) ∧ ((0.0021288339049499923499188 : ℝ) ≤ Real.sin (1.08996378260940573321 / 512 : ℝ) ∧ Real.sin (1.08996378260940573321 / 512 : ℝ) ≤ (0.0021288339049500008817479 : ℝ))) :=
    cos_sin_double (by norm_num) h5.1.1 h5.1.2 h5.2.1 h5.2.2 (by norm_num) (by norm_num) (by norm_num) (by norm_num) (by norm_num) (by norm_num)
  have h7 : (((0.99999093613240839034551 : ℝ) ≤ Real.cos (1.08996378260940573321 / 256 : ℝ) ∧ Real.cos (1.08996378260940573321 / 256 : ℝ) ≤ (0.9999909361324104796241431 : ℝ)) ∧ ((0.0042576581621547344537333 : ℝ) ≤ Real.sin (1.08996378260940573321 / 256 : ℝ) ∧ Real.sin (1.08996378260940573321 / 256 : ℝ) ≤ (0.0042576581621547537412216 : ℝ))) :=
    cos_sin_double (by norm_num) h6.1.1 h6.1.2 h6.2.1 h6.2.2 (by norm_num) (by norm_num) (by norm_num) (by norm_num) (by norm_num) (by norm_num)
  have h8 : (((0.9999637446939409528185035 : ℝ) ≤ Real.cos (1.08996378260940573321 / 128 : ℝ) ∧ Real.cos (1.08996378260940573321 / 128 : ℝ) ≤ (0.9999637446939493098572883 : ℝ)) ∧ ((0.008515239142609804694225 : ℝ) ≤ Real.sin (1.08996378260940573321 / 128 : ℝ) ∧ Real.sin (1.08996378260940573321 / 128 : ℝ) ≤ (0.0085152391426098610597205 : ℝ))) :=
    cos_sin_double (by norm_num) h7.1.1 h7.1.2 h7.2.1 h7.2.2 (by norm_num) (by norm_num) (by norm_num) (by norm_num) (by norm_num) (by norm_num)
  have h9 : (((0.9998549814046582461443805 : ℝ) ≤ Real.cos (1.08996378260940573321 / 64 : ℝ) ∧ Real.cos (1.08996378260940573321 / 64 : ℝ) ≤ (0.9998549814046916730875718 : ℝ)) ∧ ((0.0170298608400170467944921 : ℝ) ≤ Real.sin (1.08996378260940573321 / 64 : ℝ) ∧ Real.sin (1.08996378260940573321 / 64 : ℝ) ≤ (0.0170298608400173018457636 : ℝ))) :=
    cos_sin_double (by norm_num) h8.1.1 h8.1.2 h8.2.1 h8.2.2 (by norm_num) (by norm_num) (by norm_num) (by norm_num) (by norm_num) (by norm_num)
  have h10 : (((0.9994199676794189743682281 : ℝ) ≤ Real.cos (1.08996378260940573321 / 32 : ℝ) ∧ Real.cos (1.08996378260940573321 / 32 : ℝ) ≤ (0.99941996767955266275088 : ℝ)) ∧ ((0.0340547823870383239639743 : ℝ) ≤ Real.sin (1.08996378260940573321 / 32 : ℝ) ∧ Real.sin (1.08996378260940573321 / 32 : ℝ) ≤ (0.0340547823870399725049248 : ℝ))) :=
    cos_sin_double (by norm_num) h9.1.1 h9.1.2 h9.2.1 h9.2.2 (by norm_num) (by norm_num) (by norm_num) (by norm_num) (by norm_num) (by norm_num)
  have h11 : (((0.9976805435926617346922937 : ℝ) ≤ Real.cos (1.08996378260940573321 / 16 : ℝ) ∧ Real.cos (1.08996378260940573321 / 16 : ℝ) ≤ (0.9976805435931961780485702 : ℝ)) ∧ ((0.0680700590251669765710905 : ℝ) ≤ Real.sin (1.08996378260940573321 / 16 : ℝ) ∧ Real.sin (1.08996378260940573321 / 16 : ℝ) ≤ (0.0680700590251793771981353 : ℝ))) :=
    cos_sin_double (by norm_num) h10.1.1 h10.1.2 h10.2.1 h10.2.2 (by norm_num) (by norm_num) (by norm_num) (by norm_num) (by norm_num) (by norm_num)
  have h12 : (((0.9907329341266980238350139 : ℝ) ≤ Real.cos (1.08996378260940573321 / 8 : ℝ) ∧ Real.cos (1.08996378260940573321 / 8 : ℝ) ≤ (0.9907329341288308387878523 : ℝ)) ∧ ((0.1358243469812263182271522 : ℝ) ≤ Real.sin (1.08996378260940573321 / 8 : ℝ) ∧ Real.sin (1.08996378260940573321 / 8 : ℝ) ≤ (0.1358243469813238211374289 : ℝ))) :=
    cos_sin_double (by norm_num) h11.1.1 h11.1.2 h11.2.1 h11.2.2 (by norm_num) (by norm_num) (by norm_num) (by norm_num) (by norm_num) (by norm_num)
  have h13 : (((0.9631034935265923315763657 : ℝ) ≤ Real.cos (1.08996378260940573321 / 4 : ℝ) ∧ Real.cos (1.08996378260940573321 / 4 : ℝ) ≤ (0.9631034935350445316410745 : ℝ)) ∧ ((0.2691313076211061390528135 : ℝ) ≤ Real.sin (1.08996378260940573321 / 4 : ℝ) ∧ Real.sin (1.08996378260940573321 / 4 : ℝ) ≤ (0.2691313076218787141379848 : ℝ))) :=
    cos_sin_double (by norm_num) h12.1.1 h12.1.2 h12.2.1 h12.2.2 (by norm_num) (by norm_num) (by norm_num) (by norm_num) (by norm_num) (by norm_num)
  have h14 : (((0.8551366784862537542674469 : ℝ) ≤ Real.cos (1.08996378260940573321 / 2 : ℝ) ∧ Real.cos (1.08996378260940573321 / 2 : ℝ) ≤ (0.8551366785188151279088168 : ℝ)) ∧ ((0.5184026051745346516518055 : ℝ) ≤ Real.sin (1.08996378260940573321 / 2 : ℝ) ∧ Real.sin (1.08996378260940573321 / 2 : ℝ) ≤ (0.5184026051805722944902794 : ℝ))) :=
    cos_sin_double (by norm_num) h13.1.1 h13.1.2 h13.2.1 h13.2.2 (by norm_num) (by norm_num) (by norm_num) (by norm_num) (by norm_num) (by norm_num)
  have h15 : (((0.4625174777850050488300568 : ℝ) ≤ Real.cos (1.08996378260940573321 : ℝ) ∧ Real.cos (1.08996378260940573321 : ℝ) ≤ (0.4625174778963827484427011 : ℝ)) ∧ ((0.8866101638151447703951092 : ℝ) ≤ Real.sin (1.08996378260940573321 : ℝ) ∧ Real.sin (1.08996378260940573321 : ℝ) ≤ (0.8866101638592305919285554 : ℝ))) :=
    cos_sin_double (by norm_num) h14.1.1 h14.1.2 h14.2.1 h14.2.2 (by norm_num) (by norm_num) (by norm_num) (by norm_num) (by norm_num) (by norm_num)
  exact h15

/-- C1 failing-input evaluation: at eccentricity 0.899 (within the claimed
range [0, 0.97), below the iteration cutoff so the solver runs 5 Newton
iterations) and mean anomaly 0.2929, the Kepler residual of the returned
eccentric anomaly exceeds 1e-9 (it is about 1.245e-6), so the claimed
tolerance does not hold.  Proved by certified rational interval
arithmetic through the five Newton iterates, with the sine and cosine
bounds of the c1_chain lemmas transferred to each iterate by the
Lipschitz property. -/
theorem C1_kepler_residual_exceeds_tolerance :
    (1e-9 : ℝ) < keplerResidual 0.899 0.2929 := by
  have hki : keplerIters (0.899 : ℝ) = 5 := by
    rw [keplerIters, if_neg]
    norm_num
  have hres : keplerResidual 0.899 0.2929 =
      |newtonIter (0.899 : ℝ) 0.2929 5 - 0.899 * Real.sin (newtonIter (0.899 : ℝ) 0.2929 5) - 0.2929| := by
    simp only [keplerResidual, hki]
  rw [hres]
  have hE0eq : newtonIter (0.899 : ℝ) 0.2929 0 = 0.2929 := by rw [newtonIter]
  have hE0 : ((0.2929 : ℝ) ≤ newtonIter (0.899 : ℝ) 0.2929 0 ∧ newtonIter (0.899 : ℝ) 0.2929 0 ≤ 0.2929) := ⟨le_of_eq hE0eq.symm, le_of_eq hE0eq⟩
  have hs0 : ((0.2887299260164719429766506 : ℝ) ≤ Real.sin (newtonIter (0.899 : ℝ) 0.2929 0) ∧ Real.sin (newtonIter (0.899 : ℝ) 0.2929 0) ≤ (0.2887299260209063187095878 : ℝ)) :=
    sin_bounds_transfer (show (0.2929 : ℝ) - (0 : ℝ) ≤ newtonIter (0.899 : ℝ) 0.2929 0 by linarith only [hE0.1]) (show newtonIter (0.899 : ℝ) 0.2929 0 ≤ (0.2929 : ℝ) + (0 : ℝ) by linarith only [hE0.2]) c1_chain_m0.2.1 c1_chain_m0.2.2 (by norm_num) (by norm_num)
  have hc0 : ((0.9574105857690265701692034 : ℝ) ≤ Real.cos (newtonIter (0.899 : ℝ) 0.2929 0) ∧ Real.cos (newtonIter (0.899 : ℝ) 0.2929 0) ≤ (0.9574105858140728374166014 : ℝ)) :=
    cos_bounds_transfer (show (0.2929 : ℝ) - (0 : ℝ) ≤ newtonIter (0.899 : ℝ) 0.2929 0 by linarith only [hE0.1]) (show newtonIter (0.899 : ℝ) 0.2929 0 ≤ (0.2929 : ℝ) + (0 : ℝ) by linarith only [hE0.2]) c1_chain_m0.1.1 c1_chain_m0.1.2 (by norm_num) (by norm_num)
  have hf0 : ((-0.2595682034927947805199195 : ℝ) ≤ newtonIter (0.899 : ℝ) 0.2929 0 - 0.899 * Real.sin (newtonIter (0.899 : ℝ) 0.2929 0) - 0.2929 ∧ newtonIter (0.899 : ℝ) 0.2929 0 - 0.899 * Real.sin (newtonIter (0.899 : ℝ) 0.2929 0) - 0.2929 ≤ (-0.2595682034888082767360088 : ℝ)) :=
    ⟨by linarith only [hE0.1, hs0.2], by linarith only [hE0.2, hs0.1]⟩
  have hg0 : ((0.1392878833531485191624753 : ℝ) ≤ 1 - 0.899 * Real.cos (newtonIter (0.899 : ℝ) 0.2929 0) ∧ 1 - 0.899 * Real.cos (newtonIter (0.899 : ℝ) 0.2929 0) ≤ (0.1392878833936451134178862 : ℝ)) :=
    ⟨by linarith only [hc0.2], by linarith only [hc0.1]⟩
  have hq0 : ((-1.8635375686964044656428922 : ℝ) ≤ (newtonIter (0.899 : ℝ) 0.2929 0 - 0.899 * Real.sin (newtonIter (0.899 : ℝ) 0.2929 0) - 0.2929) / (1 - 0.899 * Real.cos (newtonIter (0.899 : ℝ) 0.2929 0)) ∧ (newtonIter (0.899 : ℝ) 0.2929 0 - 0.899 * Real.sin (newtonIter (0.899 : ℝ) 0.2929 0) - 0.2929) / (1 - 0.899 * Real.cos (newtonIter (0.899 : ℝ) 0.2929 0)) ≤ (-1.86353756812597847705508 : ℝ)) :=
    div_bounds_of_neg hf0.1 hf0.2 hg0.1 hg0.2 (by norm_num) (by norm_num) (by norm_num) (by norm_num) (by norm_num) (by norm_num)
  have hE1s : ((2.15643756812597847705508 : ℝ) ≤ newtonIter (0.899 : ℝ) 0.2929 (0 + 1) ∧ newtonIter (0.899 : ℝ) 0.2929 (0 + 1) ≤ (2.1564375686964044656428922 : ℝ)) := by
    rw [newtonIter_succ]
    exact ⟨by linarith only [hE0.1, hq0.2], by linarith only [hE0.2, hq0.1]⟩
  have hE1 : ((2.15643756812597847705508 : ℝ) ≤ newtonIter (0.899 : ℝ) 0.2929 1 ∧ newtonIter (0.899 : ℝ) 0.2929 1 ≤ (2.1564375686964044656428922 : ℝ)) := hE1s
  have hs1 : ((0.8333578209428859443570827 : ℝ) ≤ Real.sin (newtonIter (0.899 : ℝ) 0.2929 1) ∧ Real.sin (newtonIter (0.899 : ℝ) 0.2929 1) ≤ (0.8333578215704173536181348 : ℝ)) :=
    sin_bounds_transfer (show (2.15643756841119147134 : ℝ) - (0.0000000002852129943028922 : ℝ) ≤ newtonIter (0.899 : ℝ) 0.2929 1 by linarith only [hE1.1]) (show newtonIter (0.899 : ℝ) 0.2929 1 ≤ (2.15643756841119147134 : ℝ) + (0.0000000002852129943028922 : ℝ) by linarith only [hE1.2]) c1_chain_m1.2.1 c1_chain_m1.2.2 (by norm_num) (by norm_num)
  have hc1 : ((-0.5527338799802328753140293 : ℝ) ≤ Real.cos (newtonIter (0.899 : ℝ) 0.2929 1) ∧ Real.cos (newtonIter (0.899 : ℝ) 0.2929 1) ≤ (-0.5527338793591364391863433 : ℝ)) :=
    cos_bounds_transfer (show (2.15643756841119147134 : ℝ) - (0.0000000002852129943028922 : ℝ) ≤ newtonIter (0.899 : ℝ) 0.2929 1 by linarith only [hE1.1]) (show newtonIter (0.899 : ℝ) 0.2929 1 ≤ (2.15643756841119147134 : ℝ) + (0.0000000002852129943028922 : ℝ) by linarith only [hE1.2]) c1_chain_m1.1.1 c1_chain_m1.1.2 (by norm_num) (by norm_num)
  have hf1 : ((1.1143488865341732761523768 : ℝ) ≤ newtonIter (0.899 : ℝ) 0.2929 1 - 0.899 * Real.sin (newtonIter (0.899 : ℝ) 0.2929 1) - 0.2929 ∧ newtonIter (0.899 : ℝ) 0.2929 1 - 0.899 * Real.sin (newtonIter (0.899 : ℝ) 0.2929 1) - 0.2929 ≤ (1.1143488876687500016658749 : ℝ)) :=
    ⟨by linarith only [hE1.1, hs1.2], by linarith only [hE1.2, hs1.1]⟩
  have hg1 : ((1.4969077575438636588285226 : ℝ) ≤ 1 - 0.899 * Real.cos (newtonIter (0.899 : ℝ) 0.2929 1) ∧ 1 - 0.899 * Real.cos (newtonIter (0.899 : ℝ) 0.2929 1) ≤ (1.4969077581022293549073124 : ℝ)) :=
    ⟨by linarith only [hc1.2], by linarith only [hc1.1]⟩
  have hq1 : ((0.7444339041618289738055997 : ℝ) ≤ (newtonIter (0.899 : ℝ) 0.2929 1 - 0.899 * Real.sin (newtonIter (0.899 : ℝ) 0.2929 1) - 0.2929) / (1 - 0.899 * Real.cos (newtonIter (0.899 : ℝ) 0.2929 1)) ∧ (newtonIter (0.899 : ℝ) 0.2929 1 - 0.899 * Real.sin (newtonIter (0.899 : ℝ) 0.2929 1) - 0.2929) / (1 - 0.899 * Real.cos (newtonIter (0.899 : ℝ) 0.2929 1)) ≤ (0.7444339051974593075939142 : ℝ)) :=
    div_bounds_of_pos hf1.1 hf1.2 hg1.1 hg1.2 (by norm_num) (by norm_num) (by norm_num) (by norm_num) (by norm_num) (by norm_num)
  have hE2s : ((1.4120036629285191694611658 : ℝ) ≤ newtonIter (0.899 : ℝ) 0.2929 (1 + 1) ∧ newtonIter (0.899 : ℝ) 0.2929 (1 + 1) ≤ (1.4120036645345754918372925 : ℝ)) := by
    rw [newtonIter_succ]
    exact ⟨by linarith only [hE1.1, hq1.2], by linarith only [hE1.2, hq1.1]⟩
  have hE2 : ((1.4120036629285191694611658 : ℝ) ≤ newtonIter (0.899 : ℝ) 0.2929 2 ∧ newtonIter (0.899 : ℝ) 0.2929 2 ≤ (1.4120036645345754918372925 : ℝ)) := hE2s
  have hs2 : ((0.9874189137261420166744529 : ℝ) ≤ Real.sin (newtonIter (0.899 : ℝ) 0.2929 2) ∧ Real.sin (newtonIter (0.899 : ℝ) 0.2929 2) ≤ (0.9874189153691497218706245 : ℝ)) :=
    sin_bounds_transfer (show (1.41200366373154733064 : ℝ) - (0.0000000008030281611972925 : ℝ) ≤ newtonIter (0.899 : ℝ) 0.2929 2 by linarith only [hE2.1]) (show newtonIter (0.899 : ℝ) 0.2929 2 ≤ (1.41200366373154733064 : ℝ) + (0.0000000008030281611972925 : ℝ) by linarith only [hE2.2]) c1_chain_m2.2.1 c1_chain_m2.2.2 (by norm_num) (by norm_num)
  have hc2 : ((0.1581261739599491392142777 : ℝ) ≤ Real.cos (newtonIter (0.899 : ℝ) 0.2929 2) ∧ Real.cos (newtonIter (0.899 : ℝ) 0.2929 2) ≤ (0.1581261756334241908633955 : ℝ)) :=
    cos_bounds_transfer (show (1.41200366373154733064 : ℝ) - (0.0000000008030281611972925 : ℝ) ≤ newtonIter (0.899 : ℝ) 0.2929 2 by linarith only [hE2.1]) (show newtonIter (0.899 : ℝ) 0.2929 2 ≤ (1.41200366373154733064 : ℝ) + (0.0000000008030281611972925 : ℝ) by linarith only [hE2.2]) c1_chain_m2.1.1 c1_chain_m2.1.2 (by norm_num) (by norm_num)
  have hf2 : ((0.2314140580116535694994743 : ℝ) ≤ newtonIter (0.899 : ℝ) 0.2929 2 - 0.899 * Real.sin (newtonIter (0.899 : ℝ) 0.2929 2) - 0.2929 ∧ newtonIter (0.899 : ℝ) 0.2929 2 - 0.899 * Real.sin (newtonIter (0.899 : ℝ) 0.2929 2) - 0.2929 ≤ (0.2314140610947738188469594 : ℝ)) :=
    ⟨by linarith only [hE2.1, hs2.2], by linarith only [hE2.2, hs2.1]⟩
  have hg2 : ((0.8578445681055516524138074 : ℝ) ≤ 1 - 0.899 * Real.cos (newtonIter (0.899 : ℝ) 0.2929 2) ∧ 1 - 0.899 * Real.cos (newtonIter (0.899 : ℝ) 0.2929 2) ≤ (0.8578445696100057238463644 : ℝ)) :=
    ⟨by linarith only [hc2.2], by linarith only [hc2.1]⟩
  have hq2 : ((0.2697622229127816153897672 : ℝ) ≤ (newtonIter (0.899 : ℝ) 0.2929 2 - 0.899 * Real.sin (newtonIter (0.899 : ℝ) 0.2929 2) - 0.2929) / (1 - 0.899 * Real.cos (newtonIter (0.899 : ℝ) 0.2929 2)) ∧ (newtonIter (0.899 : ℝ) 0.2929 2 - 0.899 * Real.sin (newtonIter (0.899 : ℝ) 0.2929 2) - 0.2929) / (1 - 0.899 * Real.cos (newtonIter (0.899 : ℝ) 0.2929 2)) ≤ (0.2697622269799113188887165 : ℝ)) :=
    div_bounds_of_pos hf2.1 hf2.2 hg2.1 hg2.2 (by norm_num) (by norm_num) (by norm_num) (by norm_num) (by norm_num) (by norm_num)
  have hE3s : ((1.1422414359486078505724493 : ℝ) ≤ newtonIter (0.899 : ℝ) 0.2929 (2 + 1) ∧ newtonIter (0.899 : ℝ) 0.2929 (2 + 1) ≤ (1.1422414416217938764475253 : ℝ)) := by
    rw [newtonIter_succ]
    exact ⟨by linarith only [hE2.1, hq2.2], by linarith only [hE2.2, hq2.1]⟩
  have hE3 : ((1.1422414359486078505724493 : ℝ) ≤ newtonIter (0.899 : ℝ) 0.2929 3 ∧ newtonIter (0.899 : ℝ) 0.2929 3 ≤ (1.1422414416217938764475253 : ℝ)) := hE3s
  have hs3 : ((0.9095672224926859392653649 : ℝ) ≤ Real.sin (newtonIter (0.899 : ℝ) 0.2929 3) ∧ Real.sin (newtonIter (0.899 : ℝ) 0.2929 3) ≤ (0.9095672281796344606981326 : ℝ)) :=
    sin_bounds_transfer (show (1.1422414387852008635 : ℝ) - (0.0000000028365930129475253 : ℝ) ≤ newtonIter (0.899 : ℝ) 0.2929 3 by linarith only [hE3.1]) (show newtonIter (0.899 : ℝ) 0.2929 3 ≤ (1.1422414387852008635 : ℝ) + (0.0000000028365930129475253 : ℝ) by linarith only [hE3.2]) c1_chain_m3.2.1 c1_chain_m3.2.2 (by norm_num) (by norm_num)
  have hc3 : ((0.4155568074308764110274272 : ℝ) ≤ Real.cos (newtonIter (0.899 : ℝ) 0.2929 3) ∧ Real.cos (newtonIter (0.899 : ℝ) 0.2929 3) ≤ (0.4155568131369387912415096 : ℝ)) :=
    cos_bounds_transfer (show (1.1422414387852008635 : ℝ) - (0.0000000028365930129475253 : ℝ) ≤ newtonIter (0.899 : ℝ) 0.2929 3 by linarith only [hE3.1]) (show newtonIter (0.899 : ℝ) 0.2929 3 ≤ (1.1422414387852008635 : ℝ) + (0.0000000028365930129475253 : ℝ) by linarith only [hE3.2]) c1_chain_m3.1.1 c1_chain_m3.1.2 (by norm_num) (by norm_num)
  have hf3 : ((0.031640497815116470404828 : ℝ) ≤ newtonIter (0.899 : ℝ) 0.2929 3 - 0.899 * Real.sin (newtonIter (0.899 : ℝ) 0.2929 3) - 0.2929 ∧ newtonIter (0.899 : ℝ) 0.2929 3 - 0.899 * Real.sin (newtonIter (0.899 : ℝ) 0.2929 3) - 0.2929 ≤ (0.0316405086008692170479623 : ℝ)) :=
    ⟨by linarith only [hE3.1, hs3.2], by linarith only [hE3.2, hs3.1]⟩
  have hg3 : ((0.6264144249898920266738828 : ℝ) ≤ 1 - 0.899 * Real.cos (newtonIter (0.899 : ℝ) 0.2929 3) ∧ 1 - 0.899 * Real.cos (newtonIter (0.899 : ℝ) 0.2929 3) ≤ (0.626414430119642106486343 : ℝ)) :=
    ⟨by linarith only [hc3.2], by linarith only [hc3.1]⟩
  have hq3 : ((0.0505104868179254576914531 : ℝ) ≤ (newtonIter (0.899 : ℝ) 0.2929 3 - 0.899 * Real.sin (newtonIter (0.899 : ℝ) 0.2929 3) - 0.2929) / (1 - 0.899 * Real.cos (newtonIter (0.899 : ℝ) 0.2929 3)) ∧ (newtonIter (0.899 : ℝ) 0.2929 3 - 0.899 * Real.sin (newtonIter (0.899 : ℝ) 0.2929 3) - 0.2929) / (1 - 0.899 * Real.cos (newtonIter (0.899 : ℝ) 0.2929 3)) ≤ (0.0505105044497973939211722 : ℝ)) :=
    div_bounds_of_pos hf3.1 hf3.2 hg3.1 hg3.2 (by norm_num) (by norm_num) (by norm_num) (by norm_num) (by norm_num) (by norm_num)
  have hE4s : ((1.0917309314988104566512771 : ℝ) ≤ newtonIter (0.899 : ℝ) 0.2929 (3 + 1) ∧ newtonIter (0.899 : ℝ) 0.2929 (3 + 1) ≤ (1.0917309548038684187560722 : ℝ)) := by
    rw [newtonIter_succ]
    exact ⟨by linarith only [hE3.1, hq3.2], by linarith only [hE3.2, hq3.1]⟩
  have hE4 : ((1.0917309314988104566512771 : ℝ) ≤ newtonIter (0.899 : ℝ) 0.2929 4 ∧ newtonIter (0.899 : ℝ) 0.2929 4 ≤ (1.0917309548038684187560722 : ℝ)) := hE4s
  have hs4 : ((0.8874261099960318611795934 : ℝ) ≤ Real.sin (newtonIter (0.899 : ℝ) 0.2929 4) ∧ Real.sin (newtonIter (0.899 : ℝ) 0.2929 4) ≤ (0.8874261333455164329646322 : ℝ)) :=
    sin_bounds_transfer (show (1.0917309431513394377 : ℝ) - (0.0000000116525289810560722 : ℝ) ≤ newtonIter (0.899 : ℝ) 0.2929 4 by linarith only [hE4.1]) (show newtonIter (0.899 : ℝ) 0.2929 4 ≤ (1.0917309431513394377 : ℝ) + (0.0000000116525289810560722 : ℝ) by linarith only [hE4.2]) c1_chain_m4.2.1 c1_chain_m4.2.2 (by norm_num) (by norm_num)
  have hc4 : ((0.4609499622620855194485628 : ℝ) ≤ Real.cos (newtonIter (0.899 : ℝ) 0.2929 4) ∧ Real.cos (newtonIter (0.899 : ℝ) 0.2929 4) ≤ (0.4609499856791667887572139 : ℝ)) :=
    cos_bounds_transfer (show (1.0917309431513394377 : ℝ) - (0.0000000116525289810560722 : ℝ) ≤ newtonIter (0.899 : ℝ) 0.2929 4 by linarith only [hE4.1]) (show newtonIter (0.899 : ℝ) 0.2929 4 ≤ (1.0917309431513394377 : ℝ) + (0.0000000116525289810560722 : ℝ) by linarith only [hE4.2]) c1_chain_m4.1.1 c1_chain_m4.1.2 (by norm_num) (by norm_num)
  have hf4 : ((0.0010348376211911834160727 : ℝ) ≤ newtonIter (0.899 : ℝ) 0.2929 4 - 0.899 * Real.sin (newtonIter (0.899 : ℝ) 0.2929 4) - 0.2929 ∧ newtonIter (0.899 : ℝ) 0.2929 4 - 0.899 * Real.sin (newtonIter (0.899 : ℝ) 0.2929 4) - 0.2929 ≤ (0.0010348819174357755556178 : ℝ)) :=
    ⟨by linarith only [hE4.1, hs4.2], by linarith only [hE4.2, hs4.1]⟩
  have hg4 : ((0.5856059628744290569072647 : ℝ) ≤ 1 - 0.899 * Real.cos (newtonIter (0.899 : ℝ) 0.2929 4) ∧ 1 - 0.899 * Real.cos (newtonIter (0.899 : ℝ) 0.2929 4) ≤ (0.5856059839263851180157421 : ℝ)) :=
    ⟨by linarith only [hc4.2], by linarith only [hc4.1]⟩
  have hq4 : ((0.0017671226893085674894637 : ℝ) ≤ (newtonIter (0.899 : ℝ) 0.2929 4 - 0.899 * Real.sin (newtonIter (0.899 : ℝ) 0.2929 4) - 0.2929) / (1 - 0.899 * Real.cos (newtonIter (0.899 : ℝ) 0.2929 4)) ∧ (newtonIter (0.899 : ℝ) 0.2929 4 - 0.899 * Real.sin (newtonIter (0.899 : ℝ) 0.2929 4) - 0.2929) / (1 - 0.899 * Real.cos (newtonIter (0.899 : ℝ) 0.2929 4)) ≤ (0.0017671983945588414793081 : ℝ)) :=
    div_bounds_of_pos hf4.1 hf4.2 hg4.1 hg4.2 (by norm_num) (by norm_num) (by norm_num) (by norm_num) (by norm_num) (by norm_num)
  have hE5s : ((1.089963733104251615171969 : ℝ) ≤ newtonIter (0.899 : ℝ) 0.2929 (4 + 1) ∧ newtonIter (0.899 : ℝ) 0.2929 (4 + 1) ≤ (1.0899638321145598512666085 : ℝ)) := by
    rw [newtonIter_succ]
    exact ⟨by linarith only [hE4.1, hq4.2], by linarith only [hE4.2, hq4.1]⟩
  have hE5 : ((1.089963733104251615171969 : ℝ) ≤ newtonIter (0.899 : ℝ) 0.2929 5 ∧ newtonIter (0.899 : ℝ) 0.2929 5 ≤ (1.0899638321145598512666085 : ℝ)) := hE5s
  have hs5 : ((0.8866101143099906523385007 : ℝ) ≤ Real.sin (newtonIter (0.899 : ℝ) 0.2929 5) ∧ Real.sin (newtonIter (0.899 : ℝ) 0.2929 5) ≤ (0.8866102133643847099851639 : ℝ)) :=
    sin_bounds_transfer (show (1.08996378260940573321 : ℝ) - (0.0000000495051541180566085 : ℝ) ≤ newtonIter (0.899 : ℝ) 0.2929 5 by linarith only [hE5.1]) (show newtonIter (0.899 : ℝ) 0.2929 5 ≤ (1.08996378260940573321 : ℝ) + (0.0000000495051541180566085 : ℝ) by linarith only [hE5.2]) c1_chain_m5.2.1 c1_chain_m5.2.2 (by norm_num) (by norm_num)
  have hf5 : ((0.0000011512896697608953066 : ℝ) ≤ newtonIter (0.899 : ℝ) 0.2929 5 - 0.899 * Real.sin (newtonIter (0.899 : ℝ) 0.2929 5) - 0.2929 ∧ newtonIter (0.899 : ℝ) 0.2929 5 - 0.899 * Real.sin (newtonIter (0.899 : ℝ) 0.2929 5) - 0.2929 ≤ (0.0000013393498782548142964 : ℝ)) :=
    ⟨by linarith only [hE5.1, hs5.2], by linarith only [hE5.2, hs5.1]⟩
  have habs : newtonIter (0.899 : ℝ) 0.2929 5 - 0.899 * Real.sin (newtonIter (0.899 : ℝ) 0.2929 5) - 0.2929 ≤ |newtonIter (0.899 : ℝ) 0.2929 5 - 0.899 * Real.sin (newtonIter (0.899 : ℝ) 0.2929 5) - 0.2929| := le_abs_self _
  calc (1e-9 : ℝ) < (0.0000011512896697608953066 : ℝ) := by norm_num
    _ ≤ newtonIter (0.899 : ℝ) 0.2929 5 - 0.899 * Real.sin (newtonIter (0.899 : ℝ) 0.2929 5) - 0.2929 := hf5.1
    _ ≤ |newtonIter (0.899 : ℝ) 0.2929 5 - 0.899 * Real.sin (newtonIter (0.899 : ℝ) 0.2929 5) - 0.2929| := habs

end SolarSim
